import Mathlib

/-!
Verification of the playlist-generator engine (Rust sources under `src/`)
against its natural-language specification.

Conventions of the shallow embedding:
* `f32` arithmetic is modelled exactly, by `ℚ` where the source only uses
  field operations and comparisons, and by `ℝ` where the source applies
  `log2` or `sqrt` (genre-entropy and popularity-variance scores).
* Rust strings in the data set are ASCII; `to_lowercase`, `len`,
  `is_numeric`, `split_whitespace`, `contains`, `starts_with`, `ends_with`
  are modelled by character-list functions that agree with the Rust ones on
  ASCII input.
* The ambient clock (`Utc::now()` inside `parse_days_since_played`,
  combined with `chrono` timestamp parsing) is modelled by an explicit
  oracle `daysSince : String → ℚ` mapping a `played` timestamp string to
  the number of days since it was played, as the specification requires the
  current time to be an injectable input.
* Options: `Option`; `unwrap_or(d)`: `Option.getD d`.
-/

namespace PlaylistGen

/-! ## Data model (src/models.rs) -/

/-- Genre record of the OpenSubsonic "genres" array (`models.rs::Genre`):
only a name. We inline it as `String`. -/
abbrev GenreName := String

/-- `models.rs::Song`. Numeric `u32` fields become `ℕ`. -/
structure Song where
  id : String
  title : String
  artist : String
  album : String
  genre : Option String
  genres : Option (List GenreName)
  bpm : Option ℕ
  duration : Option ℕ
  year : Option ℕ
  track : Option ℕ
  play_count : Option ℕ
  disc_number : Option ℕ
  album_id : Option String
  artist_id : Option String
  played : Option String
  starred : Option String
  bit_rate : Option ℕ
  content_type : Option String
deriving DecidableEq, Repr

/-- `models.rs::Song::default`. -/
def Song.default : Song where
  id := ""
  title := "Unknown"
  artist := "Unknown"
  album := "Unknown"
  genre := none
  genres := none
  bpm := none
  duration := none
  year := none
  track := none
  play_count := none
  disc_number := none
  album_id := none
  artist_id := none
  played := none
  starred := none
  bit_rate := none
  content_type := none

/-! ## Configuration (src/playlist/config.rs) -/

/-- `config.rs::BpmThresholds`. -/
structure BpmThresholds where
  min_bpm : ℕ
  max_bpm : ℕ
deriving DecidableEq, Repr

/-- `config.rs::QualityWeights` (five `f32` weights). -/
structure QualityWeights where
  artist_diversity : ℚ
  bpm_transition_smoothness : ℚ
  genre_coherence : ℚ
  popularity_balance : ℚ
  era_cohesion : ℚ
deriving DecidableEq, Repr

/-- `config.rs::TransitionRules`. -/
structure TransitionRules where
  max_bpm_jump : ℕ
  preferred_bpm_change : ℤ
  avoid_artist_repeats_within : ℕ
deriving DecidableEq, Repr

/-- Modelled from the spec: the `PlayCountFilter` enum is not declared
anywhere under `src/` (`filters.rs` imports it from the config module,
which does not define it).  Its variants are reconstructed from §4.1 of
the spec ("exact count match, inclusive min/max range, a comparison
operator against a threshold, or a percentile filter") and from the
`match` arms that consume it in `filters.rs::matches_play_count_filter`. -/
inductive PlayCountFilter where
  | none
  | exact (count : Option ℕ)
  | range (min max : Option ℕ)
  | threshold (operator : String) (count : ℕ)
  | percentile (direction : String) (percent : ℚ)
deriving DecidableEq, Repr

/-- `config.rs::PreferenceWeights`.  The `play_count_filter` field is
required by `filters.rs` (`config.preference_weights.play_count_filter`)
but missing from the config declaration in the sources; it is added here
as the optional filter that `filters.rs` consumes. -/
structure PreferenceWeights where
  starred_boost : ℚ
  play_count_weight : ℚ
  recency_penalty_weight : ℚ
  randomness_factor : ℚ
  discovery_mode : Bool
  play_count_filter : Option PlayCountFilter
deriving DecidableEq, Repr

/-- `config.rs::PlaylistConfig`. -/
structure PlaylistConfig where
  name : String
  acceptable_genres : Option (List String)
  unacceptable_genres : Option (List String)
  bpm_thresholds : Option BpmThresholds
  quality_weights : QualityWeights
  transition_rules : TransitionRules
  preference_weights : PreferenceWeights
  target_length : Option ℕ
deriving DecidableEq, Repr

/-! ## ASCII string helpers

These model the Rust string primitives used by the engine.  They operate
on the character list of a `String` so that every definition is
structurally recursive (hence evaluable by `decide`). -/

/-- Rust `str::to_lowercase` (ASCII fragment). -/
def lowerStr (s : String) : String :=
  ⟨s.toList.map Char.toLower⟩

/-- Rust `str::starts_with`. -/
def startsWithStr (s pre : String) : Bool :=
  pre.toList.isPrefixOf s.toList

/-- Rust `str::ends_with`. -/
def endsWithStr (s suf : String) : Bool :=
  suf.toList.isSuffixOf s.toList

/-- One step of the substring scan. -/
def containsSubAux (pat : List Char) : List Char → Bool
  | [] => pat.isPrefixOf []
  | c :: cs => pat.isPrefixOf (c :: cs) || containsSubAux pat cs

/-- Rust `str::contains` (substring search). -/
def containsSub (s pat : String) : Bool :=
  containsSubAux pat.toList s.toList

/-- Accumulating worker for `splitWhitespace`. -/
def splitWsAux : List Char → List Char → List String
  | [], acc => if acc.isEmpty then [] else [⟨acc.reverse⟩]
  | c :: cs, acc =>
    if c.isWhitespace then
      if acc.isEmpty then splitWsAux cs [] else ⟨acc.reverse⟩ :: splitWsAux cs []
    else
      splitWsAux cs (c :: acc)

/-- Rust `str::split_whitespace` (runs of whitespace separate words; no
empty words are produced). -/
def splitWhitespace (s : String) : List String :=
  splitWsAux s.toList []

/-- Rust `str::trim` (ASCII whitespace). -/
def trimStr (s : String) : String :=
  ⟨((s.toList.dropWhile Char.isWhitespace).reverse.dropWhile Char.isWhitespace).reverse⟩

/-! ## Genre helpers (src/models.rs) -/

/-- Insertion step of the lexicographic sort used to model `Vec::sort()`
on the genre strings. -/
def insertStrAsc (x : String) : List String → List String
  | [] => [x]
  | y :: ys => if x ≤ y then x :: y :: ys else y :: insertStrAsc x ys

/-- Ascending lexicographic sort of strings (`Vec::sort()`). -/
def sortStrAsc : List String → List String
  | [] => []
  | x :: xs => insertStrAsc x (sortStrAsc xs)

/-- `models.rs::Song::get_all_genres`: the single `genre` field plus the
`genres` array, lowercased, sorted and deduplicated.  On the sorted list,
Rust's adjacent `dedup` removes every duplicate, which `List.dedup` also
does. -/
def Song.get_all_genres (song : Song) : List String :=
  let fromSingle := match song.genre with
    | some g => [lowerStr g]
    | none => []
  let fromArray := match song.genres with
    | some gs => gs.map lowerStr
    | none => []
  (sortStrAsc (fromSingle ++ fromArray)).dedup

/-- `models.rs::Song::matches_genre_patterns_string`: some pattern is a
case-insensitive substring of some genre tag. -/
def Song.matches_genre_patterns_string (song : Song) (patterns : List String) : Bool :=
  patterns.any fun pat =>
    song.get_all_genres.any fun genre =>
      containsSub (lowerStr genre) (lowerStr pat)

/-! ## Track filter (src/playlist/filters.rs) -/

/-- The table of non-song title markers of `filters.rs::is_actual_song`. -/
def non_song_patterns : List String :=
  ["interlude", "intro", "outro", "prelude", "postlude",
   "bridge", "transition", "segue",
   "sketch", "fragment", "snippet", "bits", "piece",
   "monologue", "dialogue", "speech", "interview", "conversation", "discussion",
   "atmosphere", "soundscape", "field recording",
   "rain", "ocean", "wind", "nature sounds",
   "meditation", "mantra", "prayer", "chant",
   "silence", "pause", "break", "intermission",
   "announcement", "commercial", "ad",
   "test", "testing", "tuning",
   "int.", "intro.", "outro.", "interl.",
   "untitled"]

/-- `filters.rs::SongFilters::is_actual_song`: heuristic rejection of
interludes, sketches, spoken word, out-of-range durations, numeric
titles, parenthetical markers and "track N" titles. -/
def is_actual_song (song : Song) : Bool :=
  let title_lower := lowerStr song.title
  let contains_non_song_pattern := non_song_patterns.any fun pattern =>
    title_lower == pattern ||
    startsWithStr title_lower (pattern ++ " ") ||
    endsWithStr title_lower (" " ++ pattern) ||
    containsSub title_lower (" " ++ pattern ++ " ") ||
    (splitWhitespace title_lower).any (fun word => word == pattern) ||
    startsWithStr title_lower (pattern ++ ":")
  let too_short := match song.duration with
    | some d => d < 60
    | none => false
  let too_long := match song.duration with
    | some d => 600 < d
    | none => false
  let is_just_number_or_short :=
    (trimStr title_lower).toList.length ≤ 2 ||
    (trimStr title_lower).toList.all fun c => c.isDigit || c == '.' || c == '-'
  let has_parenthetical_indicators :=
    containsSub title_lower "(interlude)" ||
    containsSub title_lower "(intro)" ||
    containsSub title_lower "(outro)" ||
    containsSub title_lower "(sketch)" ||
    (containsSub title_lower "(instrumental)" &&
      match song.duration with
      | some d => d < 90
      | none => false)
  let is_track_number :=
    startsWithStr title_lower "track " &&
    (title_lower.toList.drop 6).all fun c => c.isDigit || c.isWhitespace
  !contains_non_song_pattern &&
  !too_short &&
  !too_long &&
  !is_just_number_or_short &&
  !has_parenthetical_indicators &&
  !is_track_number

/-- `filters.rs::SongFilters::matches_acceptable_genres`. -/
def matches_acceptable_genres (song : Song) (config : PlaylistConfig) : Bool :=
  match config.acceptable_genres with
  | none => true
  | some pats => song.matches_genre_patterns_string pats

/-- `filters.rs::SongFilters::does_not_match_unacceptable_genres`. -/
def does_not_match_unacceptable_genres (song : Song) (config : PlaylistConfig) : Bool :=
  match config.unacceptable_genres with
  | none => true
  | some pats => !song.matches_genre_patterns_string pats

/-- `filters.rs::SongFilters::matches_bpm_thresholds`: unknown tempo is
accepted; known tempo must lie inside the configured range. -/
def matches_bpm_thresholds (song : Song) (config : PlaylistConfig) : Bool :=
  match config.bpm_thresholds with
  | none => true
  | some thresholds =>
    match song.bpm with
    | none => true
    | some song_bpm =>
      decide (thresholds.min_bpm ≤ song_bpm) && decide (song_bpm ≤ thresholds.max_bpm)

/-- Insertion step of the ascending play-count sort. -/
def insertNatAsc (x : ℕ) : List ℕ → List ℕ
  | [] => [x]
  | y :: ys => if x ≤ y then x :: y :: ys else y :: insertNatAsc x ys

/-- Ascending sort of play counts (`Vec::sort_unstable()`). -/
def sortNatAsc : List ℕ → List ℕ
  | [] => []
  | x :: xs => insertNatAsc x (sortNatAsc xs)

/-- `filters.rs::SongFilters::matches_play_count_filter`.  The percentile
index cast `as usize` truncates toward zero and saturates negative values
to zero, modelled by `Int.toNat ∘ Int.floor`. -/
def matches_play_count_filter (song : Song) (config : PlaylistConfig)
    (all_songs : List Song) : Bool :=
  match config.preference_weights.play_count_filter with
  | Option.none => true
  | some filter =>
    match filter with
    | .none => true
    | .exact count =>
      match count with
      | some target_count => song.play_count == some target_count
      | Option.none => song.play_count == Option.none
    | .range min max =>
      let song_play_count := song.play_count.getD 0
      let min_ok := match min with
        | some m => decide (m ≤ song_play_count)
        | Option.none => true
      let max_ok := match max with
        | some m => decide (song_play_count ≤ m)
        | Option.none => true
      min_ok && max_ok
    | .threshold operator count =>
      let song_play_count := song.play_count.getD 0
      match operator with
      | "above" => decide (count < song_play_count)
      | "below" => decide (song_play_count < count)
      | "at_least" => decide (count ≤ song_play_count)
      | "at_most" => decide (song_play_count ≤ count)
      | _ => true
    | .percentile direction percent =>
      let play_counts := sortNatAsc (all_songs.map fun s => s.play_count.getD 0)
      let song_play_count := song.play_count.getD 0
      match direction with
      | "top" =>
        let threshold_index := (Int.floor ((1 - percent) * play_counts.length)).toNat
        let threshold := (play_counts.get? threshold_index).getD 0
        decide (threshold ≤ song_play_count)
      | "bottom" =>
        let threshold_index := (Int.floor (percent * play_counts.length)).toNat
        let threshold := (play_counts.get? threshold_index).getD 0
        decide (song_play_count ≤ threshold)
      | _ => true

/-- `filters.rs::SongFilters::should_include_song`. -/
def should_include_song (song : Song) (config : PlaylistConfig) : Bool :=
  is_actual_song song &&
  matches_acceptable_genres song config &&
  does_not_match_unacceptable_genres song config &&
  matches_bpm_thresholds song config

/-- `filters.rs::SongFilters::should_include_song_with_play_count_filter`. -/
def should_include_song_with_play_count_filter (song : Song) (config : PlaylistConfig)
    (all_songs : List Song) : Bool :=
  should_include_song song config && matches_play_count_filter song config all_songs

/-! ## Playlist metadata (src/playlist/metadata.rs, src/playlist/scoring.rs) -/

/-- `metadata.rs::PlaylistMetadata`.  The genre histogram (`HashMap` in
the source) is an association list with pairwise-distinct keys. -/
structure PlaylistMetadata where
  total_duration : ℕ
  total_songs : ℕ
  average_bpm : ℚ
  bpm_range : ℕ × ℕ
  genre_distribution : List (String × ℕ)
  artist_count : ℕ
  era_span : Option ℕ × Option ℕ
  avg_popularity : ℚ

/-- `*genre_distribution.entry(genre.to_lowercase()).or_insert(0) += 1`:
bump the count of one key in the histogram. -/
def bumpGenre : List (String × ℕ) → String → List (String × ℕ)
  | [], g => [(g, 1)]
  | (k, c) :: rest, g => if k = g then (k, c + 1) :: rest else (k, c) :: bumpGenre rest g

/-- Add one song's (deduplicated) genres to the histogram. -/
def addSongGenres (dist : List (String × ℕ)) (song : Song) : List (String × ℕ) :=
  song.get_all_genres.foldl (fun d g => bumpGenre d (lowerStr g)) dist

/-- The genre→count histogram of `scoring.rs::calculate_metadata`. -/
def genreDistribution (songs : List Song) : List (String × ℕ) :=
  songs.foldl addSongGenres []

/-- Distinct-artist count (`HashSet` cardinality in the source). -/
def artistCount (songs : List Song) : ℕ :=
  (songs.map Song.artist).dedup.length

/-- `scoring.rs::PlaylistScoring::calculate_metadata`. -/
def calculate_metadata (songs : List Song) : PlaylistMetadata :=
  if songs.isEmpty then
    { total_duration := 0, total_songs := 0, average_bpm := 0, bpm_range := (0, 0),
      genre_distribution := [], artist_count := 0, era_span := (none, none),
      avg_popularity := 0 }
  else
    let bpms := songs.filterMap Song.bpm
    let years := songs.filterMap Song.year
    { total_duration := (songs.filterMap Song.duration).sum
      total_songs := songs.length
      average_bpm := if bpms.isEmpty then 0 else (bpms.sum : ℚ) / bpms.length
      bpm_range := match bpms with
        | [] => (0, 0)
        | b :: bs => (bs.foldl min b, bs.foldl max b)
      genre_distribution := genreDistribution songs
      artist_count := artistCount songs
      era_span := match years with
        | [] => (none, none)
        | y :: ys => (some (ys.foldl min y), some (ys.foldl max y))
      avg_popularity := ((songs.filterMap Song.play_count).sum : ℚ) / songs.length }

/-! ## Preference scoring (src/playlist/scoring.rs) -/

/-- `scoring.rs::PlaylistScoring::calculate_preference_score`.  The call
`parse_days_since_played` (chrono parsing plus `Utc::now()`) is modelled
by the explicit oracle `daysSince`; in the source it never returns `Err`,
so the `if let Ok(..)` always fires. -/
def calculate_preference_score (daysSince : String → ℚ) (song : Song)
    (config : PlaylistConfig) : ℚ :=
  let weights := config.preference_weights
  let starredTerm : ℚ := if song.starred.isSome then weights.starred_boost else 0
  let playCountTerm : ℚ :=
    match song.play_count with
    | some play_count =>
      if weights.discovery_mode then
        (50 - min (play_count : ℚ) 50) * weights.play_count_weight
      else
        (play_count : ℚ) * weights.play_count_weight
    | none => if weights.discovery_mode then 50 * weights.play_count_weight else 0
  let recencyTerm : ℚ :=
    match song.played with
    | some played_str =>
      let days_since_played := daysSince played_str
      if days_since_played < 14 then
        -(weights.recency_penalty_weight * (1 - days_since_played / 7))
      else 0
    | none => 0
  let randomness_multiplier : ℕ := if weights.discovery_mode then 20 else 10
  let randomnessTerm : ℚ :=
    ((song.id.toList.length % randomness_multiplier : ℕ) : ℚ) * weights.randomness_factor
  starredTerm + playCountTerm + recencyTerm + randomnessTerm

/-! ## Transition scoring (src/playlist/transitions.rs) -/

/-- `transitions.rs::PlaylistTransitions::calculate_bpm_transition_score`. -/
def calculate_bpm_transition_score (config : PlaylistConfig)
    (song_a song_b : Song) : ℚ :=
  match song_a.bpm, song_b.bpm with
  | some bpm_a, some bpm_b =>
    let actual_change : ℤ := (bpm_b : ℤ) - (bpm_a : ℤ)
    let ideal_change : ℤ := config.transition_rules.preferred_bpm_change
    if actual_change = ideal_change then 1
    else if (0 < ideal_change ∧ 0 < actual_change) ∨ (ideal_change < 0 ∧ actual_change < 0) then
      let max_jump : ℚ := (config.transition_rules.max_bpm_jump : ℚ)
      let closeness : ℚ := 1 - ((actual_change - ideal_change).natAbs : ℚ) / max_jump
      1/2 + min (closeness * (4/10)) (4/10)
    else if (0 < ideal_change ∧ actual_change < 0) ∨ (ideal_change < 0 ∧ 0 < actual_change) then
      let max_jump : ℚ := (config.transition_rules.max_bpm_jump : ℚ)
      let wrong_magnitude : ℚ := (actual_change.natAbs : ℚ)
      4/10 - min ((3/10) * (wrong_magnitude / max_jump)) (3/10)
    else 4/10
  | _, _ => 1/2

/-- `transitions.rs::PlaylistTransitions::calculate_genre_compatibility_score`. -/
def calculate_genre_compatibility_score (config : PlaylistConfig)
    (current_playlist : List Song) (candidate : Song) : ℚ :=
  if current_playlist.isEmpty then 1/2
  else
    let candidate_genres := candidate.get_all_genres
    if candidate_genres.isEmpty then 1/2
    else
      let playlist_genres := genreDistribution current_playlist
      if playlist_genres.isEmpty then 1/2
      else
        let coherence_pref := config.quality_weights.genre_coherence
        let genre_matches := candidate_genres.filterMap fun g =>
          playlist_genres.lookup (lowerStr g)
        let best_frequency : ℚ := genre_matches.foldl
          (fun best frequency =>
            max best (min ((frequency : ℚ) / (current_playlist.length : ℚ)) 1)) 0
        if genre_matches.isEmpty then
          9/10 - (8/10) * coherence_pref
        else
          1/2 + best_frequency * (1/2) * coherence_pref

/-- `transitions.rs::PlaylistTransitions::calculate_transition_score`:
mean of the tempo-direction component (against the last placed song) and
the genre-compatibility component; `1/2` for an empty sequence. -/
def calculate_transition_score (config : PlaylistConfig)
    (current_playlist : List Song) (candidate : Song) : ℚ :=
  match current_playlist with
  | [] => 1/2
  | c :: cs =>
    let last_song := (c :: cs).getLast (List.cons_ne_nil c cs)
    let bpm_score := calculate_bpm_transition_score config last_song candidate
    let genre_score := calculate_genre_compatibility_score config (c :: cs) candidate
    (bpm_score + genre_score) / 2

/-- `transitions.rs::PlaylistTransitions::would_violate_artist_repetition`:
the candidate's artist occurs among the last `avoid_within` placed songs. -/
def would_violate_artist_repetition (avoid_within : ℕ)
    (current_playlist : List Song) (candidate : Song) : Bool :=
  let check_count := min avoid_within current_playlist.length
  let recent_songs := current_playlist.drop (current_playlist.length - check_count)
  recent_songs.any fun recent_song => recent_song.artist == candidate.artist

/-! ## Quality scoring (src/playlist/scoring.rs) -/

/-- `scoring.rs::calculate_genre_coherence_score`: one minus the genre
entropy (with probabilities `count / total_songs`) normalized by
`log2 genre_count`; `1/2` without data, `1` for a single genre. -/
noncomputable def calculate_genre_coherence_score
    (genre_distribution : List (String × ℕ)) (total_songs : ℕ) : ℝ :=
  if genre_distribution.isEmpty ∨ total_songs = 0 then 1/2
  else if genre_distribution.length = 1 then 1
  else
    let entropy : ℝ := genre_distribution.foldl
      (fun acc kc =>
        let probability : ℝ := (kc.2 : ℝ) / (total_songs : ℝ)
        if 0 < probability then acc - probability * Real.logb 2 probability else acc) 0
    let max_entropy : ℝ := Real.logb 2 (genre_distribution.length : ℝ)
    let normalized_entropy := if 0 < max_entropy then entropy / max_entropy else 0
    1 - normalized_entropy

/-- The entropy accumulated by `calculate_genre_coherence_score`,
written as a sum: per genre `-(p * log2 p)` with `p = count/total_songs`
(and `0` for a vanishing probability). -/
noncomputable def genreEntropy (genre_distribution : List (String × ℕ))
    (total_songs : ℕ) : ℝ :=
  (genre_distribution.map fun kc =>
    if 0 < (kc.2 : ℝ) / (total_songs : ℝ) then
      -((kc.2 : ℝ) / (total_songs : ℝ) * Real.logb 2 ((kc.2 : ℝ) / (total_songs : ℝ)))
    else 0).sum

/-- `scoring.rs::calculate_era_cohesion_score`: piecewise function of the
year span; `1/2` without year data. -/
def calculate_era_cohesion_score : Option ℕ × Option ℕ → ℚ
  | (some min_year, some max_year) =>
    let span : ℕ := max_year - min_year
    if span ≤ 2 then 1
    else if span ≤ 10 then 8/10 - ((span : ℚ) - 2) / 8 * (3/10)
    else if span ≤ 20 then 5/10 - ((span : ℚ) - 10) / 10 * (3/10)
    else max (2/10 - ((span : ℚ) - 20) / 50 * (2/10)) 0
  | _ => 1/2

/-- `scoring.rs::calculate_popularity_balance_score`: piecewise in the
coefficient of variation of the play counts. -/
noncomputable def calculate_popularity_balance_score (songs : List Song) : ℝ :=
  let play_counts := songs.filterMap Song.play_count
  if play_counts.isEmpty then 1/2
  else if play_counts.length = 1 then 1/2
  else
    let mean : ℝ := (play_counts.sum : ℝ) / (play_counts.length : ℝ)
    let variance : ℝ :=
      ((play_counts.map fun pc => ((pc : ℝ) - mean) ^ 2).sum) / (play_counts.length : ℝ)
    let std_dev := Real.sqrt variance
    let coefficient_of_variation := if 0 < mean then std_dev / mean else 0
    if coefficient_of_variation ≤ 3/10 then
      coefficient_of_variation / (3/10) * (1/2)
    else if coefficient_of_variation ≤ 1 then
      1/2 + (coefficient_of_variation - 3/10) / (7/10) * (1/2)
    else
      min (max (2 - coefficient_of_variation) 0) 1

/-- `scoring.rs::calculate_artist_diversity_score`: distinct artists over
track count; `1` for at most one song. -/
def calculate_artist_diversity_score (songs : List Song) : ℚ :=
  if songs.length ≤ 1 then 1
  else (artistCount songs : ℚ) / (songs.length : ℚ)

/-- Tempo deltas of consecutive pairs where both tempos are known
(`songs.windows(2).filter_map(..)`). -/
def bpmJumps : List Song → List ℕ
  | a :: b :: rest =>
    (match a.bpm, b.bpm with
     | some bpm1, some bpm2 => [((bpm1 : ℤ) - (bpm2 : ℤ)).natAbs]
     | _, _ => []) ++ bpmJumps (b :: rest)
  | _ => []

/-- `scoring.rs::calculate_bpm_transition_smoothness_score`:
`(60 − average jump) / 60` clamped to `[0,1]`; `1` for a single song,
`1/2` with no usable tempo pairs. -/
def calculate_bpm_transition_smoothness_score (songs : List Song) : ℚ :=
  if songs.length ≤ 1 then 1
  else
    let bpm_transitions := bpmJumps songs
    if bpm_transitions.isEmpty then 1/2
    else
      let avg_jump : ℚ := (bpm_transitions.sum : ℚ) / (bpm_transitions.length : ℚ)
      min (max ((60 - avg_jump) / 60) 0) 1

/-- Sum of the five quality weights. -/
def QualityWeights.total (w : QualityWeights) : ℚ :=
  w.genre_coherence + w.popularity_balance + w.era_cohesion +
    w.artist_diversity + w.bpm_transition_smoothness

/-- All five quality weights are nonnegative (the configuration contract
documents each weight as lying in `[0,1]`). -/
def QualityWeightsNonneg (w : QualityWeights) : Prop :=
  0 ≤ w.artist_diversity ∧ 0 ≤ w.bpm_transition_smoothness ∧
    0 ≤ w.genre_coherence ∧ 0 ≤ w.popularity_balance ∧ 0 ≤ w.era_cohesion

/-- `scoring.rs::PlaylistScoring::calculate_quality_score`: `0` for an
empty list, otherwise the weighted sub-scores summed and divided by the
weight sum when that sum is positive, else the neutral `1/2`. -/
noncomputable def calculate_quality_score (songs : List Song)
    (metadata : PlaylistMetadata) (config : PlaylistConfig) : ℝ :=
  if songs.isEmpty then 0
  else
    let weights := config.quality_weights
    let genre_coherence_score :=
      calculate_genre_coherence_score metadata.genre_distribution songs.length *
        (weights.genre_coherence : ℝ)
    let era_cohesion_score :=
      (calculate_era_cohesion_score metadata.era_span : ℝ) * (weights.era_cohesion : ℝ)
    let popularity_balance_score :=
      calculate_popularity_balance_score songs * (weights.popularity_balance : ℝ)
    let artist_diversity_score :=
      (calculate_artist_diversity_score songs : ℝ) * (weights.artist_diversity : ℝ)
    let bpm_smoothness_score :=
      (calculate_bpm_transition_smoothness_score songs : ℝ) *
        (weights.bpm_transition_smoothness : ℝ)
    let total_score := genre_coherence_score + popularity_balance_score +
      era_cohesion_score + artist_diversity_score + bpm_smoothness_score
    let total_weight : ℝ := (weights.total : ℝ)
    if 0 < total_weight then total_score / total_weight else 1/2

/-! ## Sequence builder

`main.rs` drives a generator whose result type is
`metadata.rs::Playlist` (playlist songs carrying a transition score, a
quality contribution and a selection reason), but the sources contain no
implementation producing that type: `generator.rs` is a stale draft that
references config fields and playlist shapes that do not exist.  The
sequence-construction algorithm itself is therefore modelled from §4.7 of
the spec, on top of the collaborators that are present in the sources
(`filters.rs`, `scoring.rs`, `transitions.rs`, `metadata.rs`). -/

/-- `metadata.rs::PlaylistSong`: a song plus generation diagnostics. -/
structure PlaylistSong where
  song : Song
  transition_score : Option ℚ
  quality_contribution : Option ℝ
  selection_reason : String

/-- `metadata.rs::Playlist`. -/
structure Playlist where
  name : String
  songs : List PlaylistSong
  quality_score : ℝ
  metadata : PlaylistMetadata
  base_name_pattern : String

/-- Quality of a track list with its own metadata, the way every call
site pairs `calculate_quality_score` with `calculate_metadata`. -/
noncomputable def qualityOf (songs : List Song) (config : PlaylistConfig) : ℝ :=
  calculate_quality_score songs (calculate_metadata songs) config

/-- Modelled from the spec: the hard constraint gates of §4.6 applied by
the missing sequence builder before scoring a candidate, restricted to
the two checks whose parameters exist in the source `TransitionRules`
(artist-repeat window, via `transitions.rs::would_violate_artist_repetition`,
and the tempo-jump ceiling `max_bpm_jump`; the source config carries no
album window and no cooldown parameter). -/
def violates_hard_constraints (config : PlaylistConfig) (placed : List Song)
    (candidate : Song) : Bool :=
  would_violate_artist_repetition
      config.transition_rules.avoid_artist_repeats_within placed candidate ||
  (match placed.getLast?, candidate.bpm with
   | some last_song, some candidate_bpm =>
     match last_song.bpm with
     | some last_bpm =>
       decide (config.transition_rules.max_bpm_jump <
         ((candidate_bpm : ℤ) - (last_bpm : ℤ)).natAbs)
     | none => false
   | _, _ => false)

/-- Modelled from the spec: §4.7 step 2d, the candidate's combined score
`hypothetical_quality * 0.7 + transition_score * 0.3`. -/
noncomputable def combined_score (config : PlaylistConfig) (placed : List Song)
    (candidate : Song) : ℝ :=
  qualityOf (placed ++ [candidate]) config * (7/10) +
    (calculate_transition_score config placed candidate : ℝ) * (3/10)

/-- Modelled from the spec: §4.7 step 2, the scan over the remaining
candidates in preference order, skipping constraint violators and keeping
the first best-scoring eligible candidate (with its combined and
transition scores). -/
noncomputable def scan_candidates (config : PlaylistConfig) (placed : List Song) :
    Option (Song × ℝ × ℚ) → List Song → Option (Song × ℝ × ℚ)
  | best, [] => best
  | best, candidate :: rest =>
    if violates_hard_constraints config placed candidate then
      scan_candidates config placed best rest
    else
      let combined := combined_score config placed candidate
      let transition := calculate_transition_score config placed candidate
      match best with
      | none => scan_candidates config placed (some (candidate, combined, transition)) rest
      | some (b, best_combined, bt) =>
        if best_combined < combined then
          scan_candidates config placed (some (candidate, combined, transition)) rest
        else
          scan_candidates config placed (some (b, best_combined, bt)) rest

/-- Modelled from the spec: the best eligible candidate of one
construction step (§4.7 step 2e). -/
noncomputable def find_best_candidate (config : PlaylistConfig) (placed : List Song)
    (remaining : List Song) : Option (Song × ℝ × ℚ) :=
  scan_candidates config placed none remaining

/-- The playlist entry appended for a chosen best candidate: it carries
the transition score and `combined − current_quality`, tagged
"best candidate" (§4.7 step 3). -/
noncomputable def bestEntry (config : PlaylistConfig) (placed : List Song) (c : Song)
    (comb : ℝ) (t : ℚ) : PlaylistSong :=
  { song := c, transition_score := some t,
    quality_contribution := some (comb - qualityOf placed config),
    selection_reason := "best candidate" }

/-- Modelled from the spec: the iterative greedy loop of §4.7.  The fuel
argument is the number of positions still to fill; the strict policy of
step 4 is chosen (terminate when no eligible candidate remains), which §9
lists as one of the two admissible fallback policies. -/
noncomputable def build_sequence (config : PlaylistConfig) :
    ℕ → List PlaylistSong → List Song → List PlaylistSong
  | 0, placed, _ => placed
  | fuel + 1, placed, remaining =>
    match find_best_candidate config (placed.map PlaylistSong.song) remaining with
    | none => placed
    | some (candidate, combined, transition) =>
      build_sequence config fuel
        (placed ++
          [bestEntry config (placed.map PlaylistSong.song) candidate combined transition])
        (remaining.erase candidate)

/-- Stable insertion step for the descending preference sort: an earlier
element stays in front of later elements with a key that is not larger. -/
def insertByKeyDesc (key : Song → ℚ) (x : Song) : List Song → List Song
  | [] => [x]
  | y :: ys => if key y ≤ key x then x :: y :: ys else y :: insertByKeyDesc key x ys

/-- Stable descending sort by a rational key, modelling
`sort_by(|a, b| score_b.partial_cmp(&score_a))`. -/
def sortByKeyDesc (key : Song → ℚ) : List Song → List Song
  | [] => []
  | x :: xs => insertByKeyDesc key x (sortByKeyDesc key xs)

/-- Modelled from the spec: the generation entry point (§2 data flow and
§4.7) that is missing from the sources — filter the pool with the full
track filter, sort by preference descending, then run the greedy
sequence builder and aggregate the result.  The playlist name is the
profile name that `main.rs` passes in. -/
noncomputable def generate_playlist (config : PlaylistConfig)
    (daysSince : String → ℚ) (songs : List Song) (target_length : ℕ) : Playlist :=
  let filtered := songs.filter fun song =>
    should_include_song_with_play_count_filter song config songs
  let sorted := sortByKeyDesc (fun s => calculate_preference_score daysSince s config) filtered
  let placed := build_sequence config target_length [] sorted
  let placed_songs := placed.map PlaylistSong.song
  let metadata := calculate_metadata placed_songs
  { name := config.name
    songs := placed
    quality_score := calculate_quality_score placed_songs metadata config
    metadata := metadata
    base_name_pattern := config.name }

/-- The eligibility entry point of the engine (spec §4.1
`is_eligible(track, profile, full_pool)`).  The engine's ambient clock is
passed as the `daysSince` oracle so that clock dependence is visible in
the type; the source filter chain
(`filters.rs::should_include_song_with_play_count_filter` and everything
below it) performs no time read, so the oracle is unused. -/
def is_eligible (daysSince : String → ℚ) (song : Song) (config : PlaylistConfig)
    (pool : List Song) : Bool :=
  should_include_song_with_play_count_filter song config pool

/-- No two entries of the list that are at most `w` positions apart
share an artist. -/
def ArtistWindowOk (w : ℕ) (l : List Song) : Prop :=
  ∀ i j a b, i < j → j - i ≤ w → l.get? i = some a → l.get? j = some b →
    a.artist ≠ b.artist

/-! ## Concrete instances used by counterexamples and witnesses -/

/-- Neutral preference weights (no boosts, no jitter, normal mode). -/
def prefWeightsW : PreferenceWeights :=
  { starred_boost := 0, play_count_weight := 0, recency_penalty_weight := 0,
    randomness_factor := 0, discovery_mode := false, play_count_filter := none }

/-- Witness profile: tempo range `[100,150]`, all five quality weights
`1`, default transition rules (`max_bpm_jump = 20`, neutral preferred
change, artist window `3`). -/
def cfgW : PlaylistConfig :=
  { name := "w", acceptable_genres := none, unacceptable_genres := none,
    bpm_thresholds := some { min_bpm := 100, max_bpm := 150 },
    quality_weights := { artist_diversity := 1, bpm_transition_smoothness := 1,
                         genre_coherence := 1, popularity_balance := 1, era_cohesion := 1 },
    transition_rules := { max_bpm_jump := 20, preferred_bpm_change := 0,
                          avoid_artist_repeats_within := 3 },
    preference_weights := prefWeightsW, target_length := some 2 }

/-- First witness track. -/
def w1 : Song :=
  { Song.default with
    id := "1", title := "Alpha Song", artist := "Artist A",
    album := "Album A", bpm := some 120, duration := some 180 }

/-- Second witness track. -/
def w2 : Song :=
  { Song.default with
    id := "2", title := "Beta Song", artist := "Artist B",
    album := "Album B", bpm := some 120, duration := some 180 }

/-- Witness pool. -/
def songsW : List Song := [w1, w2]

/-- Witness clock oracle: everything was played long ago. -/
def daysSinceW : String → ℚ := fun _ => 1000

/-- Expected first playlist entry of the witness run. -/
noncomputable def psW1 : PlaylistSong :=
  { song := w1, transition_score := some (1/2), quality_contribution := some (16/25),
    selection_reason := "best candidate" }

/-- Expected second playlist entry of the witness run. -/
noncomputable def psW2 : PlaylistSong :=
  { song := w2, transition_score := some (3/4), quality_contribution := some (3/200),
    selection_reason := "best candidate" }

/-- Profile for the tempo-direction counterexample: positive preferred
tempo delta `+1`, jump ceiling `20`. -/
def cfg5 : PlaylistConfig :=
  { cfgW with transition_rules := { max_bpm_jump := 20, preferred_bpm_change := 1,
                                    avoid_artist_repeats_within := 3 } }

/-- Tempo-direction counterexample: previous track at 100 bpm. -/
def sa5 : Song := { Song.default with bpm := some 100 }

/-- Tempo-direction counterexample: candidate at 200 bpm (same direction
as the preferred `+1`, but far beyond the jump ceiling). -/
def sb5 : Song := { Song.default with bpm := some 200 }

/-- Discovery profile with zero play-count weight (preference-score
counterexample). -/
def cfg8 : PlaylistConfig :=
  { cfgW with preference_weights :=
      { starred_boost := 0, play_count_weight := 0, recency_penalty_weight := 0,
        randomness_factor := 0, discovery_mode := true, play_count_filter := none } }

/-- Base track of the preference-score counterexample. -/
def songX : Song := { Song.default with id := "x" }

/-- Discovery profile with positive play-count weight (preference-score
witness). -/
def cfg8p : PlaylistConfig :=
  { cfgW with preference_weights :=
      { starred_boost := 0, play_count_weight := 1, recency_penalty_weight := 0,
        randomness_factor := 0, discovery_mode := true, play_count_filter := none } }

/-- A track tagged with genre `a`. -/
def gA : Song := { Song.default with genre := some "a" }

/-- A track tagged with genre `b`. -/
def gB : Song := { Song.default with genre := some "b" }

/-- Genre-entropy counterexample set: three `a` tracks, three `b`
tracks, and two tracks with no genre tags.  The genre "probabilities"
`3/8` sum to less than one, pushing the entropy above `log2 2`. -/
def songs8 : List Song := [gA, gA, gA, gB, gB, gB, Song.default, Song.default]

/-- Profile whose only nonzero quality weight is genre coherence. -/
def cfgC : PlaylistConfig :=
  { cfgW with
    quality_weights := { artist_diversity := 0, bpm_transition_smoothness := 0,
                         genre_coherence := 1, popularity_balance := 0, era_cohesion := 0 } }

/-! ## Bounds of the individual quality sub-scores -/

theorem era_cohesion_score_mem (span : Option ℕ × Option ℕ) :
    0 ≤ calculate_era_cohesion_score span ∧ calculate_era_cohesion_score span ≤ 1 := by
  rcases span with ⟨mn, mx⟩
  cases mn with
  | none => refine ⟨?_, ?_⟩ <;> norm_num [calculate_era_cohesion_score]
  | some miny =>
    cases mx with
    | none => refine ⟨?_, ?_⟩ <;> norm_num [calculate_era_cohesion_score]
    | some maxy =>
      simp only [calculate_era_cohesion_score]
      split_ifs with h1 h2 h3
      · norm_num
      · have hq2 : (2 : ℚ) < ((maxy - miny : ℕ) : ℚ) := by exact_mod_cast by omega
        have hq10 : ((maxy - miny : ℕ) : ℚ) ≤ 10 := by exact_mod_cast h2
        constructor <;> nlinarith
      · have hq10 : (10 : ℚ) < ((maxy - miny : ℕ) : ℚ) := by exact_mod_cast by omega
        have hq20 : ((maxy - miny : ℕ) : ℚ) ≤ 20 := by exact_mod_cast h3
        constructor <;> nlinarith
      · have hq20 : (20 : ℚ) < ((maxy - miny : ℕ) : ℚ) := by exact_mod_cast by omega
        constructor
        · exact le_max_right _ _
        · exact max_le (by nlinarith) (by norm_num)

theorem artist_diversity_score_mem (songs : List Song) :
    0 ≤ calculate_artist_diversity_score songs ∧
      calculate_artist_diversity_score songs ≤ 1 := by
  unfold calculate_artist_diversity_score
  split_ifs with h
  · norm_num
  · have hlen : 0 < songs.length := by omega
    have hsub : artistCount songs ≤ songs.length := by
      unfold artistCount
      calc (songs.map Song.artist).dedup.length
          ≤ (songs.map Song.artist).length := (songs.map Song.artist).dedup_sublist.length_le
        _ = songs.length := List.length_map _ _
    constructor
    · positivity
    · rw [div_le_one (by exact_mod_cast hlen)]
      exact_mod_cast hsub

theorem bpm_smoothness_score_mem (songs : List Song) :
    0 ≤ calculate_bpm_transition_smoothness_score songs ∧
      calculate_bpm_transition_smoothness_score songs ≤ 1 := by
  unfold calculate_bpm_transition_smoothness_score
  by_cases h1 : songs.length ≤ 1
  · rw [if_pos h1]; norm_num
  · rw [if_neg h1]
    by_cases h2 : (bpmJumps songs).isEmpty
    · rw [if_pos h2]; norm_num
    · rw [if_neg h2]
      exact ⟨le_min (le_max_right _ _) (by norm_num), min_le_right _ _⟩

/-- The coefficient-of-variation band function of the popularity balance
score maps every nonnegative input into `[0,1]`. -/
theorem cv_band_mem (cv : ℝ) (hcv : 0 ≤ cv) :
    0 ≤ (if cv ≤ 3/10 then cv / (3/10) * (1/2)
         else if cv ≤ 1 then 1/2 + (cv - 3/10) / (7/10) * (1/2)
         else min (max (2 - cv) 0) 1) ∧
    (if cv ≤ 3/10 then cv / (3/10) * (1/2)
     else if cv ≤ 1 then 1/2 + (cv - 3/10) / (7/10) * (1/2)
     else min (max (2 - cv) 0) 1) ≤ 1 := by
  split_ifs with h1 h2
  · constructor <;> nlinarith
  · constructor <;> nlinarith
  · exact ⟨le_min (le_max_right _ _) (by norm_num), min_le_right _ _⟩

theorem popularity_balance_score_mem (songs : List Song) :
    0 ≤ calculate_popularity_balance_score songs ∧
      calculate_popularity_balance_score songs ≤ 1 := by
  unfold calculate_popularity_balance_score
  by_cases h1 : (songs.filterMap Song.play_count).isEmpty
  · rw [if_pos h1]; norm_num
  · rw [if_neg h1]
    by_cases h2 : (songs.filterMap Song.play_count).length = 1
    · rw [if_pos h2]; norm_num
    · rw [if_neg h2]
      apply cv_band_mem
      split_ifs with hm
      · positivity
      · exact le_refl 0

/-! ## Genre-coherence facts -/

theorem char_toNat_ofNat {n : ℕ} (h : n.isValidChar) : (Char.ofNat n).toNat = n := by
  simp only [Char.ofNat, dif_pos h, Char.ofNatAux, Char.toNat]
  rfl

theorem char_toLower_toLower (c : Char) : c.toLower.toLower = c.toLower := by
  unfold Char.toLower
  by_cases h : c.toNat ≥ 65 ∧ c.toNat ≤ 90
  · rw [if_pos h]
    have hv : (c.toNat + 32).isValidChar := by
      left
      omega
    simp only [char_toNat_ofNat hv]
    rw [if_neg (by omega)]
  · simp only [if_neg h]

theorem lowerStr_lowerStr (s : String) : lowerStr (lowerStr s) = lowerStr s := by
  unfold lowerStr
  have h : (⟨s.toList.map Char.toLower⟩ : String).toList = s.toList.map Char.toLower := rfl
  rw [h, List.map_map]
  apply congrArg
  apply List.map_congr_left
  intro c _
  exact char_toLower_toLower c

theorem mem_insertStrAsc {y x : String} {l : List String} :
    y ∈ insertStrAsc x l ↔ y = x ∨ y ∈ l := by
  induction l with
  | nil => simp [insertStrAsc]
  | cons z zs ih =>
    unfold insertStrAsc
    split_ifs with h
    · simp
    · simp only [List.mem_cons, ih]
      tauto

theorem mem_sortStrAsc {y : String} {l : List String} :
    y ∈ sortStrAsc l ↔ y ∈ l := by
  induction l with
  | nil => simp [sortStrAsc]
  | cons z zs ih =>
    unfold sortStrAsc
    rw [mem_insertStrAsc, ih, List.mem_cons]

theorem get_all_genres_lower_fixed (s : Song) :
    ∀ g ∈ s.get_all_genres, lowerStr g = g := by
  intro g hg
  unfold Song.get_all_genres at hg
  rw [List.mem_dedup, mem_sortStrAsc] at hg
  rcases List.mem_append.mp hg with h | h
  · revert h
    cases s.genre <;> simp_all [lowerStr_lowerStr]
  · revert h
    cases s.genres with
    | none => simp
    | some gs =>
      intro h
      obtain ⟨g0, _, rfl⟩ := List.mem_map.mp h
      exact lowerStr_lowerStr g0

theorem map_lowerStr_get_all_genres (s : Song) :
    s.get_all_genres.map lowerStr = s.get_all_genres := by
  conv_rhs => rw [← List.map_id s.get_all_genres]
  exact List.map_congr_left fun x hx => get_all_genres_lower_fixed s x hx

theorem mem_bumpGenre {kc : String × ℕ} {dist : List (String × ℕ)} {g : String}
    (h : kc ∈ bumpGenre dist g) :
    kc ∈ dist ∨ (∃ c, (kc.1, c) ∈ dist ∧ kc.2 = c + 1 ∧ kc.1 = g) ∨ kc = (g, 1) := by
  induction dist with
  | nil =>
    simp only [bumpGenre, List.mem_singleton] at h
    exact Or.inr (Or.inr h)
  | cons hd tl ih =>
    obtain ⟨k, c⟩ := hd
    by_cases hk : k = g
    · subst hk
      simp [bumpGenre, List.mem_cons] at h
      rcases h with h | h
      · subst h
        exact Or.inr (Or.inl ⟨c, List.mem_cons_self _ _, rfl, rfl⟩)
      · exact Or.inl (List.mem_cons_of_mem _ h)
    · simp only [bumpGenre, if_neg hk, List.mem_cons] at h
      rcases h with h | h
      · exact Or.inl (by simp [h])
      · rcases ih h with h' | ⟨c', hm, he, hg'⟩ | h'
        · exact Or.inl (List.mem_cons_of_mem _ h')
        · exact Or.inr (Or.inl ⟨c', List.mem_cons_of_mem _ hm, he, hg'⟩)
        · exact Or.inr (Or.inr h')

theorem foldl_bump_bound :
    ∀ {gs : List String}, gs.Nodup →
    ∀ {dist : List (String × ℕ)} {kc : String × ℕ},
      kc ∈ gs.foldl bumpGenre dist →
      kc ∈ dist ∨ (∃ c, (kc.1, c) ∈ dist ∧ kc.2 = c + 1 ∧ kc.1 ∈ gs) ∨
        (kc.2 = 1 ∧ kc.1 ∈ gs) := by
  intro gs
  induction gs with
  | nil => intro _ dist kc h; exact Or.inl h
  | cons g rest ih =>
    intro hnd dist kc h
    have hg : g ∉ rest := (List.nodup_cons.mp hnd).1
    have hrest : rest.Nodup := (List.nodup_cons.mp hnd).2
    simp only [List.foldl_cons] at h
    rcases ih hrest h with h' | ⟨c, hm, he, hmem⟩ | ⟨h1, hmem⟩
    · rcases mem_bumpGenre h' with h'' | ⟨c, hm, he, hkey⟩ | h''
      · exact Or.inl h''
      · exact Or.inr (Or.inl ⟨c, hm, he, by simp [hkey]⟩)
      · refine Or.inr (Or.inr ?_)
        constructor
        · rw [h'']
        · rw [h'']; simp
    · rcases mem_bumpGenre hm with h'' | ⟨c', hm', he', hkey⟩ | h''
      · exact Or.inr (Or.inl ⟨c, h'', he, List.mem_cons_of_mem _ hmem⟩)
      · exact absurd (hkey ▸ hmem) hg
      · have : kc.1 = g := by
          have := congrArg Prod.fst h''
          simpa using this
        exact absurd (this ▸ hmem) hg
    · exact Or.inr (Or.inr ⟨h1, List.mem_cons_of_mem _ hmem⟩)

theorem addSongGenres_bound {dist : List (String × ℕ)} {s : Song} {n : ℕ}
    (hb : ∀ kc ∈ dist, kc.2 ≤ n) :
    ∀ kc ∈ addSongGenres dist s, kc.2 ≤ n + 1 := by
  intro kc hkc
  unfold addSongGenres at hkc
  rw [show (s.get_all_genres.foldl (fun d g => bumpGenre d (lowerStr g)) dist)
      = (s.get_all_genres.map lowerStr).foldl bumpGenre dist from
      (List.foldl_map _ _ _ _).symm] at hkc
  have hnd : (s.get_all_genres.map lowerStr).Nodup := by
    rw [map_lowerStr_get_all_genres]
    exact List.nodup_dedup _
  rcases foldl_bump_bound hnd hkc with h | ⟨c, hc, he, _⟩ | ⟨h1, _⟩
  · exact (hb _ h).trans (Nat.le_succ n)
  · have := hb _ hc
    omega
  · omega

theorem genreDistribution_counts_le :
    ∀ (songs : List Song) (dist : List (String × ℕ)) (n : ℕ),
      (∀ kc ∈ dist, kc.2 ≤ n) →
      ∀ kc ∈ songs.foldl addSongGenres dist, kc.2 ≤ n + songs.length := by
  intro songs
  induction songs with
  | nil => intro dist n hb kc h; simpa using hb kc h
  | cons s rest ih =>
    intro dist n hb kc h
    simp only [List.foldl_cons, List.length_cons]
    simp only [List.foldl_cons] at h
    have := ih (addSongGenres dist s) (n + 1) (addSongGenres_bound hb) kc h
    omega

theorem genreDistribution_le_length (songs : List Song) :
    ∀ kc ∈ genreDistribution songs, kc.2 ≤ songs.length := by
  intro kc h
  have := genreDistribution_counts_le songs [] 0 (by simp) kc h
  simpa using this

theorem entropy_foldl_eq (total : ℕ) (l : List (String × ℕ)) (a : ℝ) :
    (l.foldl (fun acc kc =>
      if 0 < (kc.2 : ℝ) / (total : ℝ) then
        acc - (kc.2 : ℝ) / (total : ℝ) * Real.logb 2 ((kc.2 : ℝ) / (total : ℝ))
      else acc) a) = a + genreEntropy l total := by
  induction l generalizing a with
  | nil => simp [genreEntropy]
  | cons kc rest ih =>
    simp only [genreEntropy, List.foldl_cons, List.map_cons, List.sum_cons] at *
    rw [ih]
    split_ifs <;> ring

theorem entropy_term_nonneg (total : ℕ) (kc : String × ℕ) (hb : kc.2 ≤ total) :
    0 ≤ if 0 < (kc.2 : ℝ) / (total : ℝ) then
      -((kc.2 : ℝ) / (total : ℝ) * Real.logb 2 ((kc.2 : ℝ) / (total : ℝ)))
    else 0 := by
  split_ifs with hp
  · have htot : (0 : ℝ) < (total : ℕ) := by
      rcases Nat.eq_zero_or_pos total with h0 | hpos
      · rw [h0] at hp
        norm_num at hp
      · exact_mod_cast hpos
    have hple : (kc.2 : ℝ) / (total : ℝ) ≤ 1 := by
      rw [div_le_one htot]
      exact_mod_cast hb
    have hlog : Real.logb 2 ((kc.2 : ℝ) / (total : ℝ)) ≤ 0 :=
      Real.logb_nonpos (by norm_num) (le_of_lt hp) hple
    nlinarith
  · exact le_refl 0

theorem genreEntropy_nonneg (l : List (String × ℕ)) (total : ℕ)
    (hb : ∀ kc ∈ l, kc.2 ≤ total) : 0 ≤ genreEntropy l total := by
  unfold genreEntropy
  apply List.sum_nonneg
  intro x hx
  obtain ⟨kc, hkc, rfl⟩ := List.mem_map.mp hx
  exact entropy_term_nonneg total kc (hb kc hkc)

theorem genre_coherence_score_le_one (dist : List (String × ℕ)) (total : ℕ)
    (hb : ∀ kc ∈ dist, kc.2 ≤ total) :
    calculate_genre_coherence_score dist total ≤ 1 := by
  unfold calculate_genre_coherence_score
  split_ifs with h1 h2
  · norm_num
  · norm_num
  · rw [entropy_foldl_eq, zero_add]
    have hE : 0 ≤ genreEntropy dist total := genreEntropy_nonneg dist total hb
    have : 0 ≤ (if 0 < Real.logb 2 (dist.length : ℝ) then
        genreEntropy dist total / Real.logb 2 (dist.length : ℝ) else 0) := by
      split_ifs with hM
      · exact div_nonneg hE (le_of_lt hM)
      · exact le_refl 0
    linarith

theorem genre_coherence_score_single (dist : List (String × ℕ)) (total : ℕ)
    (hne : ¬ (dist.isEmpty ∨ total = 0)) (h1 : dist.length = 1) :
    calculate_genre_coherence_score dist total = 1 := by
  unfold calculate_genre_coherence_score
  rw [if_neg hne, if_pos h1]

theorem genre_coherence_score_formula (dist : List (String × ℕ)) (total : ℕ)
    (hne : ¬ (dist.isEmpty ∨ total = 0)) (hk : 2 ≤ dist.length) :
    calculate_genre_coherence_score dist total =
      1 - genreEntropy dist total / Real.logb 2 (dist.length : ℝ) := by
  have hM : 0 < Real.logb 2 (dist.length : ℝ) := by
    apply Real.logb_pos (by norm_num)
    exact_mod_cast hk
  unfold calculate_genre_coherence_score
  simp only [if_neg hne, if_neg (show ¬ dist.length = 1 by omega),
    entropy_foldl_eq, zero_add, if_pos hM]

theorem metadata_genre_distribution_eq (songs : List Song) :
    (calculate_metadata songs).genre_distribution =
      if songs.isEmpty then [] else genreDistribution songs := by
  unfold calculate_metadata
  split_ifs <;> rfl

theorem metadata_genre_counts_le (songs : List Song) :
    ∀ kc ∈ (calculate_metadata songs).genre_distribution, kc.2 ≤ songs.length := by
  rw [metadata_genre_distribution_eq]
  split_ifs with h
  · simp
  · exact genreDistribution_le_length songs

theorem logb_two_three_lt : Real.logb 2 3 < 5/3 := by
  rw [Real.logb_lt_iff_lt_rpow (by norm_num) (by norm_num)]
  have h32 : ((2:ℝ) ^ ((5:ℝ)/3)) ^ (3:ℕ) = 32 := by
    rw [← Real.rpow_natCast ((2:ℝ) ^ ((5:ℝ)/3)) 3, ← Real.rpow_mul (by norm_num)]
    norm_num
  have h2 : (0:ℝ) ≤ 2 ^ ((5:ℝ)/3) := Real.rpow_nonneg (by norm_num) _
  have h27 : (3:ℝ) ^ (3:ℕ) < ((2:ℝ) ^ ((5:ℝ)/3)) ^ (3:ℕ) := by rw [h32]; norm_num
  exact lt_of_pow_lt_pow_left₀ 3 h2 h27

theorem coherence_songs8_neg :
    calculate_genre_coherence_score (calculate_metadata songs8).genre_distribution
      songs8.length < 0 := by
  have hdist : (calculate_metadata songs8).genre_distribution = [("a", 3), ("b", 3)] := by
    decide
  have hlen : songs8.length = 8 := by decide
  rw [hdist, hlen]
  have h38 : Real.logb 2 ((3:ℝ)/8) = Real.logb 2 3 - 3 := by
    rw [Real.logb_div (by norm_num) (by norm_num)]
    have h8 : (8:ℝ) = 2 ^ (3:ℕ) := by norm_num
    rw [h8, Real.logb_pow, Real.logb_self_eq_one (by norm_num)]
    norm_num
  rw [genre_coherence_score_formula _ _ (by norm_num) (by norm_num)]
  have hE : genreEntropy [("a", 3), ("b", 3)] 8 =
      -((3:ℝ)/8 * Real.logb 2 ((3:ℝ)/8)) + -((3:ℝ)/8 * Real.logb 2 ((3:ℝ)/8)) := by
    simp only [genreEntropy, List.map_cons, List.map_nil, List.sum_cons, List.sum_nil]
    norm_num
  have hlen2 : (([("a", 3), ("b", 3)] : List (String × ℕ)).length : ℝ) = 2 := by norm_num
  rw [hE, hlen2, Real.logb_self_eq_one (by norm_num), h38]
  have hL := logb_two_three_lt
  nlinarith

/-- One fact per sub-score: a weighted mean of five values in `[0,1]`
with nonnegative weights of positive sum lies in `[0,1]`. -/
theorem weighted_mean_mem {v1 v2 v3 v4 v5 u1 u2 u3 u4 u5 : ℝ}
    (hv1 : 0 ≤ v1 ∧ v1 ≤ 1) (hv2 : 0 ≤ v2 ∧ v2 ≤ 1) (hv3 : 0 ≤ v3 ∧ v3 ≤ 1)
    (hv4 : 0 ≤ v4 ∧ v4 ≤ 1) (hv5 : 0 ≤ v5 ∧ v5 ≤ 1)
    (hu1 : 0 ≤ u1) (hu2 : 0 ≤ u2) (hu3 : 0 ≤ u3) (hu4 : 0 ≤ u4) (hu5 : 0 ≤ u5)
    (hS : 0 < u1 + u2 + u3 + u4 + u5) :
    0 ≤ (v1*u1 + v2*u2 + v3*u3 + v4*u4 + v5*u5) / (u1 + u2 + u3 + u4 + u5) ∧
      (v1*u1 + v2*u2 + v3*u3 + v4*u4 + v5*u5) / (u1 + u2 + u3 + u4 + u5) ≤ 1 := by
  constructor
  · apply div_nonneg _ (le_of_lt hS)
    have := mul_nonneg hv1.1 hu1
    have := mul_nonneg hv2.1 hu2
    have := mul_nonneg hv3.1 hu3
    have := mul_nonneg hv4.1 hu4
    have := mul_nonneg hv5.1 hu5
    linarith
  · rw [div_le_one hS]
    have := mul_le_mul_of_nonneg_right hv1.2 hu1
    have := mul_le_mul_of_nonneg_right hv2.2 hu2
    have := mul_le_mul_of_nonneg_right hv3.2 hu3
    have := mul_le_mul_of_nonneg_right hv4.2 hu4
    have := mul_le_mul_of_nonneg_right hv5.2 hu5
    nlinarith

/-! ## Claim C6: the five quality sub-scores -/

/-- Claim C6 (counterexample): on the eight-track set `songs8` (three
tracks of genre `a`, three of genre `b`, two without genre tags), the
genre-coherence sub-score is negative — the genre "probabilities" `3/8`
sum to less than one and the entropy exceeds `log2 2`. -/
theorem genre_coherence_out_of_range :
    ¬ (0 ≤ calculate_genre_coherence_score (calculate_metadata songs8).genre_distribution
        songs8.length) := by
  have h := coherence_songs8_neg
  linarith

/-- Claim C6 (amended): four of the five quality sub-scores — artist
diversity, era cohesion, popularity balance, tempo smoothness — lie in
`[0,1]` for every track set; the genre-coherence sub-score is at most
`1`, equals exactly `1` when one distinct genre occurs, and for at least
two distinct genres equals `1` minus the entropy (with probabilities
`count / track-count`) normalized by `log2` of the number of distinct
genres — but it can drop below `0` when tracks carry no genre tags. -/
theorem quality_subscores_spec (songs : List Song) :
    (0 ≤ calculate_artist_diversity_score songs ∧
      calculate_artist_diversity_score songs ≤ 1) ∧
    (0 ≤ calculate_era_cohesion_score (calculate_metadata songs).era_span ∧
      calculate_era_cohesion_score (calculate_metadata songs).era_span ≤ 1) ∧
    (0 ≤ calculate_popularity_balance_score songs ∧
      calculate_popularity_balance_score songs ≤ 1) ∧
    (0 ≤ calculate_bpm_transition_smoothness_score songs ∧
      calculate_bpm_transition_smoothness_score songs ≤ 1) ∧
    calculate_genre_coherence_score (calculate_metadata songs).genre_distribution
      songs.length ≤ 1 ∧
    ((calculate_metadata songs).genre_distribution.length = 1 →
      calculate_genre_coherence_score (calculate_metadata songs).genre_distribution
        songs.length = 1) ∧
    (2 ≤ (calculate_metadata songs).genre_distribution.length →
      calculate_genre_coherence_score (calculate_metadata songs).genre_distribution
        songs.length =
        1 - genreEntropy (calculate_metadata songs).genre_distribution songs.length /
          Real.logb 2 (((calculate_metadata songs).genre_distribution.length : ℕ) : ℝ)) := by
  have hne : ∀ k, k ≤ (calculate_metadata songs).genre_distribution.length → 1 ≤ k →
      ¬ ((calculate_metadata songs).genre_distribution.isEmpty = true ∨ songs.length = 0) := by
    intro k hk h1k
    rintro (h | h)
    · rw [List.isEmpty_iff] at h
      rw [h] at hk
      simp at hk
      omega
    · have : songs.isEmpty = true := by
        cases songs with
        | nil => rfl
        | cons a l => simp at h
      rw [metadata_genre_distribution_eq, if_pos this] at hk
      simp at hk
      omega
  refine ⟨artist_diversity_score_mem songs, era_cohesion_score_mem _,
    popularity_balance_score_mem songs, bpm_smoothness_score_mem songs,
    genre_coherence_score_le_one _ _ (metadata_genre_counts_le songs), ?_, ?_⟩
  · intro h1
    exact genre_coherence_score_single _ _ (hne 1 (le_of_eq h1.symm) (le_refl 1)) h1
  · intro h2
    exact genre_coherence_score_formula _ _ (hne 2 h2 (by norm_num)) h2

/-! ## Claim C1: the combined quality score -/

/-- Claim C1 (counterexample): with genre coherence as the only nonzero
quality weight, the quality score of the concrete track set `songs8`
(its metadata computed by the engine) is negative, outside the claimed
range `[0,1]`. -/
theorem quality_score_out_of_range :
    calculate_quality_score songs8 (calculate_metadata songs8) cfgC < 0 := by
  have hcoh := coherence_songs8_neg
  unfold calculate_quality_score
  rw [if_neg (by decide)]
  rw [if_pos (by norm_num [cfgC, cfgW, QualityWeights.total])]
  simp only [cfgC, cfgW, QualityWeights.total]
  push_cast
  norm_num
  linarith [hcoh]

/-- Claim C1 (amended): for nonnegative quality weights the score of an
empty list is `0`; a nonempty list with positive weight sum scores the
weighted sub-scores divided by the weight sum; a nonempty list with all
five weights zero scores the neutral `0.5`; and whenever the
genre-coherence sub-score is nonnegative (the other four sub-scores
always lie in `[0,1]`, genre coherence only fails below) the result lies
in `[0,1]` regardless of absolute weight magnitudes. -/
theorem calculate_quality_score_spec (songs : List Song) (config : PlaylistConfig)
    (hw : QualityWeightsNonneg config.quality_weights) :
    (songs = [] → calculate_quality_score songs (calculate_metadata songs) config = 0) ∧
    (songs ≠ [] → 0 < config.quality_weights.total →
      calculate_quality_score songs (calculate_metadata songs) config =
        (calculate_genre_coherence_score (calculate_metadata songs).genre_distribution
            songs.length * (config.quality_weights.genre_coherence : ℝ) +
         calculate_popularity_balance_score songs *
            (config.quality_weights.popularity_balance : ℝ) +
         (calculate_era_cohesion_score (calculate_metadata songs).era_span : ℝ) *
            (config.quality_weights.era_cohesion : ℝ) +
         (calculate_artist_diversity_score songs : ℝ) *
            (config.quality_weights.artist_diversity : ℝ) +
         (calculate_bpm_transition_smoothness_score songs : ℝ) *
            (config.quality_weights.bpm_transition_smoothness : ℝ)) /
          ((config.quality_weights.total : ℚ) : ℝ)) ∧
    (songs ≠ [] → config.quality_weights.artist_diversity = 0 ∧
        config.quality_weights.bpm_transition_smoothness = 0 ∧
        config.quality_weights.genre_coherence = 0 ∧
        config.quality_weights.popularity_balance = 0 ∧
        config.quality_weights.era_cohesion = 0 →
      calculate_quality_score songs (calculate_metadata songs) config = 1/2) ∧
    (0 ≤ calculate_genre_coherence_score (calculate_metadata songs).genre_distribution
        songs.length →
      0 ≤ calculate_quality_score songs (calculate_metadata songs) config ∧
        calculate_quality_score songs (calculate_metadata songs) config ≤ 1) := by
  obtain ⟨ha, hb, hg, hp, he⟩ := hw
  have hmean : songs ≠ [] → 0 < config.quality_weights.total →
      calculate_quality_score songs (calculate_metadata songs) config =
        (calculate_genre_coherence_score (calculate_metadata songs).genre_distribution
            songs.length * (config.quality_weights.genre_coherence : ℝ) +
         calculate_popularity_balance_score songs *
            (config.quality_weights.popularity_balance : ℝ) +
         (calculate_era_cohesion_score (calculate_metadata songs).era_span : ℝ) *
            (config.quality_weights.era_cohesion : ℝ) +
         (calculate_artist_diversity_score songs : ℝ) *
            (config.quality_weights.artist_diversity : ℝ) +
         (calculate_bpm_transition_smoothness_score songs : ℝ) *
            (config.quality_weights.bpm_transition_smoothness : ℝ)) /
          ((config.quality_weights.total : ℚ) : ℝ) := by
    intro hne hpos
    unfold calculate_quality_score
    rw [if_neg (by simp [List.isEmpty_iff, hne])]
    rw [if_pos (by exact_mod_cast hpos)]
  refine ⟨?_, hmean, ?_, ?_⟩
  · intro h
    unfold calculate_quality_score
    rw [if_pos (by simp [h])]
  · intro hne h0
    unfold calculate_quality_score
    rw [if_neg (by simp [List.isEmpty_iff, hne])]
    rw [if_neg (by
      simp only [QualityWeights.total, h0.1, h0.2.1, h0.2.2.1, h0.2.2.2.1, h0.2.2.2.2]
      norm_num)]
  · intro hcoh
    by_cases hne : songs = []
    · rw [(by
        unfold calculate_quality_score
        rw [if_pos (by simp [hne])] :
        calculate_quality_score songs (calculate_metadata songs) config = 0)]
      norm_num
    · by_cases hpos : 0 < config.quality_weights.total
      · rw [hmean hne hpos]
        have htot : (0 : ℝ) < ((config.quality_weights.total : ℚ) : ℝ) := by
          exact_mod_cast hpos
        have hcoh1 := genre_coherence_score_le_one _ _ (metadata_genre_counts_le songs)
        have h2 := popularity_balance_score_mem songs
        have h3 := era_cohesion_score_mem (calculate_metadata songs).era_span
        have h4 := artist_diversity_score_mem songs
        have h5 := bpm_smoothness_score_mem songs
        have h3r : (0:ℝ) ≤ ((calculate_era_cohesion_score
              (calculate_metadata songs).era_span : ℚ) : ℝ) ∧
            ((calculate_era_cohesion_score (calculate_metadata songs).era_span : ℚ) : ℝ) ≤ 1 := by
          exact_mod_cast h3
        have h4r : (0:ℝ) ≤ ((calculate_artist_diversity_score songs : ℚ) : ℝ) ∧
            ((calculate_artist_diversity_score songs : ℚ) : ℝ) ≤ 1 := by
          exact_mod_cast h4
        have h5r : (0:ℝ) ≤ ((calculate_bpm_transition_smoothness_score songs : ℚ) : ℝ) ∧
            ((calculate_bpm_transition_smoothness_score songs : ℚ) : ℝ) ≤ 1 := by
          exact_mod_cast h5
        have hgr : (0:ℝ) ≤ ((config.quality_weights.genre_coherence : ℚ) : ℝ) := by
          exact_mod_cast hg
        have hpr : (0:ℝ) ≤ ((config.quality_weights.popularity_balance : ℚ) : ℝ) := by
          exact_mod_cast hp
        have her : (0:ℝ) ≤ ((config.quality_weights.era_cohesion : ℚ) : ℝ) := by
          exact_mod_cast he
        have har : (0:ℝ) ≤ ((config.quality_weights.artist_diversity : ℚ) : ℝ) := by
          exact_mod_cast ha
        have hbr : (0:ℝ) ≤ ((config.quality_weights.bpm_transition_smoothness : ℚ) : ℝ) := by
          exact_mod_cast hb
        have := weighted_mean_mem
          ⟨hcoh, hcoh1⟩ h2 h3r h4r h5r hgr hpr her har hbr
          (by
            have : ((config.quality_weights.total : ℚ) : ℝ) =
                ((config.quality_weights.genre_coherence : ℚ) : ℝ) +
                ((config.quality_weights.popularity_balance : ℚ) : ℝ) +
                ((config.quality_weights.era_cohesion : ℚ) : ℝ) +
                ((config.quality_weights.artist_diversity : ℚ) : ℝ) +
                ((config.quality_weights.bpm_transition_smoothness : ℚ) : ℝ) := by
              push_cast [QualityWeights.total]
              ring
            rw [← this]
            exact htot)
        have heq : ((config.quality_weights.total : ℚ) : ℝ) =
            ((config.quality_weights.genre_coherence : ℚ) : ℝ) +
            ((config.quality_weights.popularity_balance : ℚ) : ℝ) +
            ((config.quality_weights.era_cohesion : ℚ) : ℝ) +
            ((config.quality_weights.artist_diversity : ℚ) : ℝ) +
            ((config.quality_weights.bpm_transition_smoothness : ℚ) : ℝ) := by
          push_cast [QualityWeights.total]
          ring
        rw [← heq] at this
        exact this
      · have hval : calculate_quality_score songs (calculate_metadata songs) config = 1/2 := by
          unfold calculate_quality_score
          rw [if_neg (by simp [List.isEmpty_iff, hne])]
          rw [if_neg (by
            intro hc
            exact hpos (by exact_mod_cast hc))]
        rw [hval]
        norm_num

/-- Witness for the amended C1 at the all-ones weight profile and the
singleton witness track list. -/
theorem calculate_quality_score_spec_witness :
    QualityWeightsNonneg cfgW.quality_weights ∧
    (([w1] : List Song) ≠ [] → 0 < cfgW.quality_weights.total →
      calculate_quality_score [w1] (calculate_metadata [w1]) cfgW =
        (calculate_genre_coherence_score (calculate_metadata [w1]).genre_distribution
            (List.length [w1]) * (cfgW.quality_weights.genre_coherence : ℝ) +
         calculate_popularity_balance_score [w1] *
            (cfgW.quality_weights.popularity_balance : ℝ) +
         (calculate_era_cohesion_score (calculate_metadata [w1]).era_span : ℝ) *
            (cfgW.quality_weights.era_cohesion : ℝ) +
         (calculate_artist_diversity_score [w1] : ℝ) *
            (cfgW.quality_weights.artist_diversity : ℝ) +
         (calculate_bpm_transition_smoothness_score [w1] : ℝ) *
            (cfgW.quality_weights.bpm_transition_smoothness : ℝ)) /
          ((cfgW.quality_weights.total : ℚ) : ℝ)) ∧
    (0 ≤ calculate_genre_coherence_score (calculate_metadata [w1]).genre_distribution
        (List.length [w1]) →
      0 ≤ calculate_quality_score [w1] (calculate_metadata [w1]) cfgW ∧
        calculate_quality_score [w1] (calculate_metadata [w1]) cfgW ≤ 1) :=
  ⟨by norm_num [QualityWeightsNonneg, cfgW],
    (calculate_quality_score_spec [w1] cfgW (by norm_num [QualityWeightsNonneg, cfgW])).2.1,
    (calculate_quality_score_spec [w1] cfgW
      (by norm_num [QualityWeightsNonneg, cfgW])).2.2.2⟩

/-! ## Claim C9: filter determinism -/

/-- Claim C9: track-filter eligibility is deterministic: evaluated on the
same (track, profile, pool) triple under any two ambient-clock oracles,
the eligibility check returns the same boolean — the source filter chain
never reads the clock. -/
theorem is_eligible_deterministic (d₁ d₂ : String → ℚ) (song : Song)
    (config : PlaylistConfig) (pool : List Song) :
    is_eligible d₁ song config pool = is_eligible d₂ song config pool := rfl

/-! ## Claim C10: degenerate play-count filters accept everything -/

/-- Claim C10: a play-count `threshold` filter whose operator string is
none of "above"/"below"/"at_least"/"at_most", and a `percentile` filter
whose direction string is neither "top" nor "bottom", accept every track
unconditionally. -/
theorem matches_play_count_filter_invalid_accepts
    (song : Song) (config : PlaylistConfig) (pool : List Song)
    (op : String) (count : ℕ) (dir : String) (percent : ℚ)
    (hop : op ≠ "above" ∧ op ≠ "below" ∧ op ≠ "at_least" ∧ op ≠ "at_most")
    (hdir : dir ≠ "top" ∧ dir ≠ "bottom") :
    matches_play_count_filter song
      { config with preference_weights :=
          { config.preference_weights with
            play_count_filter := some (.threshold op count) } } pool = true ∧
    matches_play_count_filter song
      { config with preference_weights :=
          { config.preference_weights with
            play_count_filter := some (.percentile dir percent) } } pool = true := by
  obtain ⟨h1, h2, h3, h4⟩ := hop
  obtain ⟨g1, g2⟩ := hdir
  constructor
  · simp only [matches_play_count_filter]
  · simp only [matches_play_count_filter]

/-- Witness for C10 at the unrecognized operator "between" and the
unrecognized direction "middle". -/
theorem matches_play_count_filter_invalid_accepts_witness :
    matches_play_count_filter Song.default
      { cfgW with preference_weights :=
          { cfgW.preference_weights with
            play_count_filter := some (.threshold "between" 5) } } [] = true ∧
    matches_play_count_filter Song.default
      { cfgW with preference_weights :=
          { cfgW.preference_weights with
            play_count_filter := some (.percentile "middle" (1/2)) } } [] = true :=
  matches_play_count_filter_invalid_accepts Song.default cfgW [] "between" 5 "middle" (1/2)
    ⟨by decide, by decide, by decide, by decide⟩ ⟨by decide, by decide⟩

/-! ## Claim C5: tempo-direction transition score -/

/-- Claim C5 (counterexample): with preferred tempo delta `+1` and jump
ceiling `20`, a candidate pair moving from 100 bpm to 200 bpm moves in
the preferred direction, yet its tempo-direction score is `-27/25`,
outside the claimed band `[0.5, 0.9]`. -/
theorem bpm_transition_same_direction_below_half :
    (0 : ℤ) < cfg5.transition_rules.preferred_bpm_change ∧
    sa5.bpm = some 100 ∧ sb5.bpm = some 200 ∧
    calculate_bpm_transition_score cfg5 sa5 sb5 = -27/25 := by
  refine ⟨by decide, by decide, by decide, ?_⟩
  norm_num [calculate_bpm_transition_score, cfg5, cfgW, sa5, sb5, Song.default]

/-- Claim C5 (amended): for a positive jump ceiling and both tempos
known, the score is exactly `1` on an exact match of the preferred
delta, lies in `[0.5, 0.9]` when the actual delta has the same sign as
the preferred delta, differs from it, and overshoots or undershoots it by
at most the jump ceiling, and lies in `[0.1, 0.4]` when it has the
opposite sign; with either tempo missing the score is the neutral `0.5`. -/
theorem calculate_bpm_transition_score_spec (config : PlaylistConfig) (a b : Song)
    (hmax : 0 < config.transition_rules.max_bpm_jump) :
    (∀ ba bb : ℕ, a.bpm = some ba → b.bpm = some bb →
      (((bb : ℤ) - ba = config.transition_rules.preferred_bpm_change) →
        calculate_bpm_transition_score config a b = 1) ∧
      ((0 < config.transition_rules.preferred_bpm_change ∧ 0 < (bb : ℤ) - ba ∨
        config.transition_rules.preferred_bpm_change < 0 ∧ (bb : ℤ) - ba < 0) →
       (bb : ℤ) - ba ≠ config.transition_rules.preferred_bpm_change →
       ((bb : ℤ) - ba - config.transition_rules.preferred_bpm_change).natAbs ≤
          config.transition_rules.max_bpm_jump →
       1/2 ≤ calculate_bpm_transition_score config a b ∧
         calculate_bpm_transition_score config a b ≤ 9/10) ∧
      ((0 < config.transition_rules.preferred_bpm_change ∧ (bb : ℤ) - ba < 0 ∨
        config.transition_rules.preferred_bpm_change < 0 ∧ 0 < (bb : ℤ) - ba) →
       1/10 ≤ calculate_bpm_transition_score config a b ∧
         calculate_bpm_transition_score config a b ≤ 4/10)) ∧
    ((a.bpm = none ∨ b.bpm = none) → calculate_bpm_transition_score config a b = 1/2) := by
  have hmaxQ : (0 : ℚ) < (config.transition_rules.max_bpm_jump : ℚ) := by
    exact_mod_cast hmax
  constructor
  · intro ba bb ha hb
    refine ⟨?_, ?_, ?_⟩
    · intro heq
      simp only [calculate_bpm_transition_score, ha, hb]
      rw [if_pos heq]
    · intro hdir hne habs
      simp only [calculate_bpm_transition_score, ha, hb]
      rw [if_neg hne, if_pos hdir]
      have hn : (0 : ℚ) ≤
          (((bb : ℤ) - ba - config.transition_rules.preferred_bpm_change).natAbs : ℚ) := by
        positivity
      have hle : (((bb : ℤ) - ba - config.transition_rules.preferred_bpm_change).natAbs : ℚ) ≤
          (config.transition_rules.max_bpm_jump : ℚ) := by
        exact_mod_cast habs
      have hclose : (0 : ℚ) ≤ 1 -
          (((bb : ℤ) - ba - config.transition_rules.preferred_bpm_change).natAbs : ℚ) /
            (config.transition_rules.max_bpm_jump : ℚ) := by
        have := (div_le_one hmaxQ).mpr hle
        linarith
      constructor
      · have : (0 : ℚ) ≤ min ((1 -
            (((bb : ℤ) - ba - config.transition_rules.preferred_bpm_change).natAbs : ℚ) /
              (config.transition_rules.max_bpm_jump : ℚ)) * (4/10)) (4/10) :=
          le_min (by nlinarith) (by norm_num)
        linarith
      · have : min ((1 -
            (((bb : ℤ) - ba - config.transition_rules.preferred_bpm_change).natAbs : ℚ) /
              (config.transition_rules.max_bpm_jump : ℚ)) * (4/10)) (4/10) ≤ 4/10 :=
          min_le_right _ _
        linarith
    · intro hwrong
      have hne : (bb : ℤ) - ba ≠ config.transition_rules.preferred_bpm_change := by
        rcases hwrong with ⟨h, h'⟩ | ⟨h, h'⟩ <;> omega
      have hnsame : ¬ (0 < config.transition_rules.preferred_bpm_change ∧ 0 < (bb : ℤ) - ba ∨
          config.transition_rules.preferred_bpm_change < 0 ∧ (bb : ℤ) - ba < 0) := by
        rcases hwrong with ⟨h, h'⟩ | ⟨h, h'⟩ <;> rintro (⟨g, g'⟩ | ⟨g, g'⟩) <;> omega
      simp only [calculate_bpm_transition_score, ha, hb]
      rw [if_neg hne, if_neg hnsame, if_pos hwrong]
      have hm : (0 : ℚ) ≤ (3/10) * ((((bb : ℤ) - ba).natAbs : ℚ) /
          (config.transition_rules.max_bpm_jump : ℚ)) := by positivity
      constructor
      · have : min ((3/10) * ((((bb : ℤ) - ba).natAbs : ℚ) /
            (config.transition_rules.max_bpm_jump : ℚ))) (3/10) ≤ 3/10 :=
          min_le_right _ _
        linarith
      · have : (0 : ℚ) ≤ min ((3/10) * ((((bb : ℤ) - ba).natAbs : ℚ) /
            (config.transition_rules.max_bpm_jump : ℚ))) (3/10) :=
          le_min hm (by norm_num)
        linarith
  · intro h
    rcases h with h | h
    · simp only [calculate_bpm_transition_score, h]
    · simp only [calculate_bpm_transition_score, h]
      cases a.bpm <;> rfl

/-- Witness for the amended C5 at the exact-match case: neutral preferred
delta, both tracks at 120 bpm, score exactly `1`. -/
theorem calculate_bpm_transition_score_spec_witness :
    0 < cfgW.transition_rules.max_bpm_jump ∧
    calculate_bpm_transition_score cfgW w1 w2 = 1 :=
  ⟨by decide, by
    have h := (calculate_bpm_transition_score_spec cfgW w1 w2 (by decide)).1 120 120
      (by decide) (by decide)
    exact h.1 (by decide)⟩

/-! ## Claim C8: discovery-mode preference ordering -/

/-- Claim C8 (counterexample): with discovery mode on but a zero
play-count weight, an unplayed track and a track played twice receive
equal preference scores, so the claimed strict ordering fails. -/
theorem discovery_preference_not_strict_at_zero_weight :
    cfg8.preference_weights.discovery_mode = true ∧
    ¬ (calculate_preference_score daysSinceW songX cfg8 >
        calculate_preference_score daysSinceW { songX with play_count := some 2 } cfg8) := by
  refine ⟨by decide, ?_⟩
  norm_num [calculate_preference_score, cfg8, cfgW, songX, Song.default, daysSinceW]

/-- Claim C8 (amended): with discovery mode enabled, a strictly positive
play-count weight, and all other track fields and weights equal, an
unplayed track scores strictly above a track played twice, which scores
strictly above a track played fifty times. -/
theorem calculate_preference_score_discovery_order (config : PlaylistConfig)
    (daysSince : String → ℚ) (s : Song)
    (hd : config.preference_weights.discovery_mode = true)
    (hw : 0 < config.preference_weights.play_count_weight) :
    calculate_preference_score daysSince { s with play_count := none } config >
      calculate_preference_score daysSince { s with play_count := some 2 } config ∧
    calculate_preference_score daysSince { s with play_count := some 2 } config >
      calculate_preference_score daysSince { s with play_count := some 50 } config := by
  constructor <;>
  · simp only [calculate_preference_score, hd, if_true]
    norm_num
    linarith [hw]

/-- Witness for the amended C8: discovery profile with play-count weight
`1`, base track `songX`. -/
theorem calculate_preference_score_discovery_order_witness :
    cfg8p.preference_weights.discovery_mode = true ∧
    0 < cfg8p.preference_weights.play_count_weight ∧
    (calculate_preference_score daysSinceW { songX with play_count := none } cfg8p >
      calculate_preference_score daysSinceW { songX with play_count := some 2 } cfg8p ∧
     calculate_preference_score daysSinceW { songX with play_count := some 2 } cfg8p >
      calculate_preference_score daysSinceW { songX with play_count := some 50 } cfg8p) :=
  ⟨by decide, by decide,
    calculate_preference_score_discovery_order cfg8p daysSinceW songX (by decide) (by decide)⟩

/-! ## Sequence-builder lemmas -/

theorem scan_candidates_acc_le (config : PlaylistConfig) (placed : List Song) :
    ∀ (cands : List Song) (b c : Song) (bc cc : ℝ) (bt ct : ℚ),
      scan_candidates config placed (some (b, bc, bt)) cands = some (c, cc, ct) →
      bc ≤ cc := by
  intro cands
  induction cands with
  | nil =>
    intro b c bc cc bt ct h
    simp only [scan_candidates, Option.some.injEq, Prod.mk.injEq] at h
    exact le_of_eq h.2.1
  | cons x rest ih =>
    intro b c bc cc bt ct h
    simp only [scan_candidates] at h
    by_cases hv : violates_hard_constraints config placed x = true
    · rw [if_pos hv] at h
      exact ih b c bc cc bt ct h
    · rw [if_neg hv] at h
      by_cases hlt : bc < combined_score config placed x
      · rw [if_pos hlt] at h
        have := ih x c (combined_score config placed x) cc
          (calculate_transition_score config placed x) ct h
        linarith
      · rw [if_neg hlt] at h
        exact ih b c bc cc bt ct h

theorem scan_candidates_some_spec (config : PlaylistConfig) (placed : List Song) :
    ∀ (cands : List Song) (acc : Option (Song × ℝ × ℚ)) (c : Song) (cc : ℝ) (ct : ℚ),
      scan_candidates config placed acc cands = some (c, cc, ct) →
      acc = some (c, cc, ct) ∨
        (c ∈ cands ∧ violates_hard_constraints config placed c = false ∧
         cc = combined_score config placed c ∧
         ct = calculate_transition_score config placed c) := by
  intro cands
  induction cands with
  | nil =>
    intro acc c cc ct h
    simp only [scan_candidates] at h
    exact Or.inl h
  | cons x rest ih =>
    intro acc c cc ct h
    cases acc with
    | none =>
      simp only [scan_candidates] at h
      by_cases hv : violates_hard_constraints config placed x = true
      · rw [if_pos hv] at h
        rcases ih none c cc ct h with h' | ⟨hm, h2, h3, h4⟩
        · exact absurd h' (by simp)
        · exact Or.inr ⟨List.mem_cons_of_mem _ hm, h2, h3, h4⟩
      · rw [if_neg hv] at h
        have hvf : violates_hard_constraints config placed x = false := by
          simpa using hv
        rcases ih _ c cc ct h with h' | ⟨hm, h2, h3, h4⟩
        · simp only [Option.some.injEq, Prod.mk.injEq] at h'
          obtain ⟨rfl, rfl, rfl⟩ := h'
          exact Or.inr ⟨List.mem_cons_self _ _, hvf, rfl, rfl⟩
        · exact Or.inr ⟨List.mem_cons_of_mem _ hm, h2, h3, h4⟩
    | some acc' =>
      obtain ⟨b, bc, bt⟩ := acc'
      simp only [scan_candidates] at h
      by_cases hv : violates_hard_constraints config placed x = true
      · rw [if_pos hv] at h
        rcases ih _ c cc ct h with h' | ⟨hm, h2, h3, h4⟩
        · exact Or.inl h'
        · exact Or.inr ⟨List.mem_cons_of_mem _ hm, h2, h3, h4⟩
      · rw [if_neg hv] at h
        have hvf : violates_hard_constraints config placed x = false := by
          simpa using hv
        by_cases hlt : bc < combined_score config placed x
        · rw [if_pos hlt] at h
          rcases ih _ c cc ct h with h' | ⟨hm, h2, h3, h4⟩
          · simp only [Option.some.injEq, Prod.mk.injEq] at h'
            obtain ⟨rfl, rfl, rfl⟩ := h'
            exact Or.inr ⟨List.mem_cons_self _ _, hvf, rfl, rfl⟩
          · exact Or.inr ⟨List.mem_cons_of_mem _ hm, h2, h3, h4⟩
        · rw [if_neg hlt] at h
          rcases ih _ c cc ct h with h' | ⟨hm, h2, h3, h4⟩
          · exact Or.inl h'
          · exact Or.inr ⟨List.mem_cons_of_mem _ hm, h2, h3, h4⟩

theorem scan_candidates_max (config : PlaylistConfig) (placed : List Song) :
    ∀ (cands : List Song) (acc : Option (Song × ℝ × ℚ)) (c : Song) (cc : ℝ) (ct : ℚ),
      scan_candidates config placed acc cands = some (c, cc, ct) →
      ∀ c' ∈ cands, violates_hard_constraints config placed c' = false →
        combined_score config placed c' ≤ cc := by
  intro cands
  induction cands with
  | nil =>
    intro acc c cc ct _ c' hc'
    simp at hc'
  | cons x rest ih =>
    intro acc c cc ct h c' hc' hv'
    rcases List.mem_cons.mp hc' with rfl | hmem
    · cases acc with
      | none =>
        simp only [scan_candidates] at h
        rw [if_neg (by simp [hv'])] at h
        exact scan_candidates_acc_le config placed rest c' c _ cc _ ct h
      | some acc' =>
        obtain ⟨b, bc, bt⟩ := acc'
        simp only [scan_candidates] at h
        rw [if_neg (by simp [hv'])] at h
        by_cases hlt : bc < combined_score config placed c'
        · rw [if_pos hlt] at h
          exact scan_candidates_acc_le config placed rest c' c _ cc _ ct h
        · rw [if_neg hlt] at h
          have hb := scan_candidates_acc_le config placed rest b c bc cc bt ct h
          push_neg at hlt
          linarith
    · cases acc with
      | none =>
        simp only [scan_candidates] at h
        by_cases hv : violates_hard_constraints config placed x = true
        · rw [if_pos hv] at h
          exact ih none c cc ct h c' hmem hv'
        · rw [if_neg hv] at h
          exact ih _ c cc ct h c' hmem hv'
      | some acc' =>
        obtain ⟨b, bc, bt⟩ := acc'
        simp only [scan_candidates] at h
        by_cases hv : violates_hard_constraints config placed x = true
        · rw [if_pos hv] at h
          exact ih _ c cc ct h c' hmem hv'
        · rw [if_neg hv] at h
          by_cases hlt : bc < combined_score config placed x
          · rw [if_pos hlt] at h
            exact ih _ c cc ct h c' hmem hv'
          · rw [if_neg hlt] at h
            exact ih _ c cc ct h c' hmem hv'

theorem find_best_candidate_some (config : PlaylistConfig) (placed : List Song)
    (remaining : List Song) (c : Song) (cc : ℝ) (ct : ℚ)
    (h : find_best_candidate config placed remaining = some (c, cc, ct)) :
    c ∈ remaining ∧ violates_hard_constraints config placed c = false ∧
      cc = combined_score config placed c ∧
      ct = calculate_transition_score config placed c := by
  rcases scan_candidates_some_spec config placed remaining none c cc ct h with h' | h'
  · simp at h'
  · exact h'

/-! ## Claim C2: one construction step of the sequence builder -/

/-- Claim C2: at every construction step, each remaining candidate
flagged by the constraint checker is skipped; when a best candidate is
found, it is an unflagged member of the pool whose combined score
`hypothetical_quality * 0.7 + transition_score * 0.3` is maximal among
the unflagged candidates, and the step removes it from the pool and
appends it carrying its transition score and `combined − current_quality`
as quality contribution, tagged "best candidate". -/
theorem build_sequence_step (config : PlaylistConfig) (n : ℕ)
    (placed : List PlaylistSong) (remaining : List Song)
    (c : Song) (comb : ℝ) (t : ℚ)
    (h : find_best_candidate config (placed.map PlaylistSong.song) remaining =
      some (c, comb, t)) :
    violates_hard_constraints config (placed.map PlaylistSong.song) c = false ∧
    c ∈ remaining ∧
    comb = combined_score config (placed.map PlaylistSong.song) c ∧
    t = calculate_transition_score config (placed.map PlaylistSong.song) c ∧
    (∀ c' ∈ remaining,
      violates_hard_constraints config (placed.map PlaylistSong.song) c' = false →
      combined_score config (placed.map PlaylistSong.song) c' ≤ comb) ∧
    build_sequence config (n + 1) placed remaining =
      build_sequence config n
        (placed ++ [bestEntry config (placed.map PlaylistSong.song) c comb t])
        (remaining.erase c) ∧
    bestEntry config (placed.map PlaylistSong.song) c comb t =
      { song := c, transition_score := some t,
        quality_contribution :=
          some (comb - qualityOf (placed.map PlaylistSong.song) config),
        selection_reason := "best candidate" } := by
  obtain ⟨hmem, hviol, hcomb, htrans⟩ :=
    find_best_candidate_some config (placed.map PlaylistSong.song) remaining c comb t h
  refine ⟨hviol, hmem, hcomb, htrans, ?_, ?_, rfl⟩
  · exact scan_candidates_max config (placed.map PlaylistSong.song) remaining none c comb t h
  · simp only [build_sequence, h]

/-! ## Structural lemmas about the builder -/

theorem build_sequence_mem (config : PlaylistConfig) :
    ∀ (n : ℕ) (placed : List PlaylistSong) (remaining : List Song)
      (ps : PlaylistSong), ps ∈ build_sequence config n placed remaining →
      ps ∈ placed ∨ ps.song ∈ remaining := by
  intro n
  induction n with
  | zero =>
    intro placed remaining ps h
    simp only [build_sequence] at h
    exact Or.inl h
  | succ n ih =>
    intro placed remaining ps h
    simp only [build_sequence] at h
    cases hf : find_best_candidate config (placed.map PlaylistSong.song) remaining with
    | none =>
      rw [hf] at h
      exact Or.inl h
    | some best =>
      obtain ⟨c, comb, t⟩ := best
      rw [hf] at h
      obtain ⟨hmem, -, -, -⟩ :=
        find_best_candidate_some config (placed.map PlaylistSong.song) remaining c comb t hf
      rcases ih _ _ ps h with h' | h'
      · rcases List.mem_append.mp h' with h'' | h''
        · exact Or.inl h''
        · rw [List.mem_singleton] at h''
          subst h''
          exact Or.inr hmem
      · exact Or.inr (List.mem_of_mem_erase h')

theorem build_sequence_length_le_fuel (config : PlaylistConfig) :
    ∀ (n : ℕ) (placed : List PlaylistSong) (remaining : List Song),
      (build_sequence config n placed remaining).length ≤ placed.length + n := by
  intro n
  induction n with
  | zero =>
    intro placed remaining
    simp [build_sequence]
  | succ n ih =>
    intro placed remaining
    simp only [build_sequence]
    cases hf : find_best_candidate config (placed.map PlaylistSong.song) remaining with
    | none => simp
    | some best =>
      obtain ⟨c, comb, t⟩ := best
      have := ih
        (placed ++ [bestEntry config (placed.map PlaylistSong.song) c comb t])
        (remaining.erase c)
      simp only [List.length_append, List.length_singleton] at this
      exact le_trans this (by omega)

theorem build_sequence_length_le_remaining (config : PlaylistConfig) :
    ∀ (n : ℕ) (placed : List PlaylistSong) (remaining : List Song),
      (build_sequence config n placed remaining).length ≤
        placed.length + remaining.length := by
  intro n
  induction n with
  | zero =>
    intro placed remaining
    simp [build_sequence]
  | succ n ih =>
    intro placed remaining
    simp only [build_sequence]
    cases hf : find_best_candidate config (placed.map PlaylistSong.song) remaining with
    | none => simp
    | some best =>
      obtain ⟨c, comb, t⟩ := best
      obtain ⟨hmem, -, -, -⟩ :=
        find_best_candidate_some config (placed.map PlaylistSong.song) remaining c comb t hf
      have hrem : (remaining.erase c).length = remaining.length - 1 :=
        List.length_erase_of_mem hmem
      have hpos : 0 < remaining.length := List.length_pos_of_mem hmem
      have := ih
        (placed ++ [bestEntry config (placed.map PlaylistSong.song) c comb t])
        (remaining.erase c)
      simp only [List.length_append, List.length_singleton, hrem] at this
      exact le_trans this (by omega)

/-! ## Artist-window invariant -/

theorem would_violate_false_sound {w : ℕ} {placed : List Song} {c : Song}
    (h : would_violate_artist_repetition w placed c = false) :
    ∀ i a, placed.length - w ≤ i → placed.get? i = some a → a.artist ≠ c.artist := by
  intro i a hi hget
  simp only [would_violate_artist_repetition] at h
  have hk : placed.length - min w placed.length = placed.length - w := by omega
  rw [hk] at h
  have hilen : i < placed.length := (List.get?_eq_some.mp hget).1
  have hmem : a ∈ placed.drop (placed.length - w) := by
    have hdrop : (placed.drop (placed.length - w)).get? (i - (placed.length - w)) =
        placed.get? i := by
      rw [List.get?_drop]
      congr 1
      omega
    exact List.get?_mem (by rw [hdrop]; exact hget)
  intro heq
  have := List.any_eq_false.mp h a hmem
  simp [heq] at this

theorem artist_window_extend {w : ℕ} {l : List Song} {c : Song}
    (hok : ArtistWindowOk w l) (hnv : would_violate_artist_repetition w l c = false) :
    ArtistWindowOk w (l ++ [c]) := by
  intro i j a b hij hle ha hb
  have hjlt : j < l.length + 1 := by
    have := (List.get?_eq_some.mp hb).1
    simpa using this
  by_cases hj : j < l.length
  · have hi : i < l.length := lt_trans hij hj
    rw [List.get?_append hi] at ha
    rw [List.get?_append hj] at hb
    exact hok i j a b hij hle ha hb
  · have hjlen : j = l.length := by omega
    have hi : i < l.length := by omega
    rw [List.get?_append hi] at ha
    have hbc : b = c := by
      rw [hjlen] at hb
      rw [List.get?_append_right (le_refl _)] at hb
      simp at hb
      exact hb.symm
    subst hbc
    exact would_violate_false_sound hnv i a (by omega) ha

theorem violates_false_artist {config : PlaylistConfig} {placed : List Song} {c : Song}
    (h : violates_hard_constraints config placed c = false) :
    would_violate_artist_repetition
      config.transition_rules.avoid_artist_repeats_within placed c = false := by
  unfold violates_hard_constraints at h
  exact (Bool.or_eq_false_iff.mp h).1

theorem build_sequence_window (config : PlaylistConfig) :
    ∀ (n : ℕ) (placed : List PlaylistSong) (remaining : List Song),
      ArtistWindowOk config.transition_rules.avoid_artist_repeats_within
        (placed.map PlaylistSong.song) →
      ArtistWindowOk config.transition_rules.avoid_artist_repeats_within
        ((build_sequence config n placed remaining).map PlaylistSong.song) := by
  intro n
  induction n with
  | zero =>
    intro placed remaining h
    simpa [build_sequence] using h
  | succ n ih =>
    intro placed remaining h
    simp only [build_sequence]
    cases hf : find_best_candidate config (placed.map PlaylistSong.song) remaining with
    | none => exact h
    | some best =>
      obtain ⟨c, comb, t⟩ := best
      apply ih
      obtain ⟨-, hviol, -, -⟩ :=
        find_best_candidate_some config (placed.map PlaylistSong.song) remaining c comb t hf
      have hext := artist_window_extend h (violates_false_artist hviol)
      simpa [List.map_append, bestEntry] using hext

/-! ## Preference-sort and filter membership -/

theorem mem_insertByKeyDesc {key : Song → ℚ} {x a : Song} {l : List Song} :
    a ∈ insertByKeyDesc key x l ↔ a = x ∨ a ∈ l := by
  induction l with
  | nil => simp [insertByKeyDesc]
  | cons y ys ih =>
    unfold insertByKeyDesc
    split_ifs with h
    · simp
    · simp only [List.mem_cons, ih]
      tauto

theorem mem_sortByKeyDesc {key : Song → ℚ} {a : Song} {l : List Song} :
    a ∈ sortByKeyDesc key l ↔ a ∈ l := by
  induction l with
  | nil => simp [sortByKeyDesc]
  | cons x xs ih =>
    unfold sortByKeyDesc
    rw [mem_insertByKeyDesc, ih, List.mem_cons]

theorem length_insertByKeyDesc (key : Song → ℚ) (x : Song) (l : List Song) :
    (insertByKeyDesc key x l).length = l.length + 1 := by
  induction l with
  | nil => rfl
  | cons y ys ih =>
    unfold insertByKeyDesc
    split_ifs with h
    · rfl
    · simp [ih]

theorem length_sortByKeyDesc (key : Song → ℚ) (l : List Song) :
    (sortByKeyDesc key l).length = l.length := by
  induction l with
  | nil => rfl
  | cons x xs ih =>
    unfold sortByKeyDesc
    rw [length_insertByKeyDesc, ih, List.length_cons]

theorem generate_playlist_songs_eq (config : PlaylistConfig)
    (daysSince : String → ℚ) (songs : List Song) (target : ℕ) :
    (generate_playlist config daysSince songs target).songs =
      build_sequence config target []
        (sortByKeyDesc (fun s => calculate_preference_score daysSince s config)
          (songs.filter fun song =>
            should_include_song_with_play_count_filter song config songs)) := rfl

/-! ## Claim C3: the artist-repeat window invariant -/

/-- Claim C3: with `avoid_artist_repeats_within = 3`, no two tracks of a
generated playlist at positions less than 3 apart share an artist.  (With
the strict policy of §4.7 step 4, no fallback pick ever occurs, so the
invariant holds without exception, for every pool.) -/
theorem generate_playlist_artist_window (config : PlaylistConfig)
    (daysSince : String → ℚ) (songs : List Song) (target : ℕ)
    (hwin : config.transition_rules.avoid_artist_repeats_within = 3)
    (i j : ℕ) (hij : i < j) (hlt : j - i < 3) (a b : PlaylistSong)
    (ha : (generate_playlist config daysSince songs target).songs.get? i = some a)
    (hb : (generate_playlist config daysSince songs target).songs.get? j = some b) :
    a.song.artist ≠ b.song.artist := by
  have hok : ArtistWindowOk config.transition_rules.avoid_artist_repeats_within
      ((generate_playlist config daysSince songs target).songs.map PlaylistSong.song) := by
    rw [generate_playlist_songs_eq]
    apply build_sequence_window
    intro i' j' a' b' _ _ ha' _
    simp at ha'
  have ha' : ((generate_playlist config daysSince songs target).songs.map
      PlaylistSong.song).get? i = some a.song := by
    rw [List.get?_map, ha]
    rfl
  have hb' : ((generate_playlist config daysSince songs target).songs.map
      PlaylistSong.song).get? j = some b.song := by
    rw [List.get?_map, hb]
    rfl
  exact hok i j a.song b.song hij (by omega) ha' hb'

/-! ## Claim C4: every included track passed the track filter -/

/-- Claim C4: every track of a generated playlist passed the full track
filter against the profile and pool; in particular with a configured
tempo range `[100,150]` every included track's known tempo lies in that
range, and no included track matches the genre deny-list. -/
theorem generate_playlist_members_filtered (config : PlaylistConfig)
    (daysSince : String → ℚ) (songs : List Song) (target : ℕ) (ps : PlaylistSong)
    (hmem : ps ∈ (generate_playlist config daysSince songs target).songs) :
    should_include_song_with_play_count_filter ps.song config songs = true ∧
    (config.bpm_thresholds = some { min_bpm := 100, max_bpm := 150 } →
      ∀ b, ps.song.bpm = some b → 100 ≤ b ∧ b ≤ 150) ∧
    does_not_match_unacceptable_genres ps.song config = true := by
  rw [generate_playlist_songs_eq] at hmem
  rcases build_sequence_mem config target _ _ ps hmem with h | h
  · simp at h
  · rw [mem_sortByKeyDesc, List.mem_filter] at h
    have hfull := h.2
    have hparts := hfull
    simp only [should_include_song_with_play_count_filter, should_include_song,
      Bool.and_eq_true] at hparts
    obtain ⟨⟨⟨⟨-, -⟩, hdeny⟩, hbpm⟩, -⟩ := hparts
    refine ⟨hfull, ?_, hdeny⟩
    intro hthr b hb
    unfold matches_bpm_thresholds at hbpm
    rw [hthr, hb] at hbpm
    simp at hbpm
    exact_mod_cast hbpm

/-! ## Claim C7: playlist length bounds -/

/-- Claim C7: for every pool and target length, the generated playlist
has at most `target` tracks and at most as many tracks as candidates
that pass the track filter. -/
theorem generate_playlist_length_le (config : PlaylistConfig)
    (daysSince : String → ℚ) (songs : List Song) (target : ℕ) :
    (generate_playlist config daysSince songs target).songs.length ≤ target ∧
    (generate_playlist config daysSince songs target).songs.length ≤
      (songs.filter fun song =>
        should_include_song_with_play_count_filter song config songs).length := by
  rw [generate_playlist_songs_eq]
  constructor
  · have := build_sequence_length_le_fuel config target []
      (sortByKeyDesc (fun s => calculate_preference_score daysSince s config)
        (songs.filter fun song =>
          should_include_song_with_play_count_filter song config songs))
    simpa using this
  · have := build_sequence_length_le_remaining config target []
      (sortByKeyDesc (fun s => calculate_preference_score daysSince s config)
        (songs.filter fun song =>
          should_include_song_with_play_count_filter song config songs))
    simpa [length_sortByKeyDesc] using this

/-! ## Concrete evaluation of the witness run -/

theorem coherence_nil_eval (n : ℕ) : calculate_genre_coherence_score [] n = 1/2 := by
  unfold calculate_genre_coherence_score
  simp

theorem popularity_nodata_eval (songs : List Song)
    (h : songs.filterMap Song.play_count = []) :
    calculate_popularity_balance_score songs = 1/2 := by
  unfold calculate_popularity_balance_score
  rw [if_pos (by rw [h]; rfl)]

theorem era_none_eval : calculate_era_cohesion_score (none, none) = 1/2 := rfl

theorem diversity_w1w2_eval : calculate_artist_diversity_score [w1, w2] = 1 := by
  unfold calculate_artist_diversity_score
  rw [if_neg (by decide)]
  rw [show artistCount [w1, w2] = 2 from by decide]
  norm_num

theorem smoothness_w1w2_eval : calculate_bpm_transition_smoothness_score [w1, w2] = 1 := by
  unfold calculate_bpm_transition_smoothness_score
  rw [if_neg (by decide)]
  rw [if_neg (by decide)]
  rw [show bpmJumps [w1, w2] = [0] from by decide]
  simp only [List.sum_cons, List.sum_nil, List.length_singleton]
  rw [show (min (max ((60 - ((0 : ℕ) + 0 : ℕ) / ((1 : ℕ) : ℚ)) / 60) 0) 1 : ℚ) = 1 from by
    norm_num]

theorem qualityOf_w1_eval : qualityOf [w1] cfgW = 7/10 := by
  unfold qualityOf calculate_quality_score
  rw [if_neg (by decide)]
  rw [if_pos (by norm_num [cfgW, QualityWeights.total])]
  rw [show (calculate_metadata [w1]).genre_distribution = [] from by decide]
  rw [show (calculate_metadata [w1]).era_span = (none, none) from by decide]
  rw [coherence_nil_eval, popularity_nodata_eval [w1] (by decide), era_none_eval]
  rw [show calculate_artist_diversity_score [w1] = 1 from rfl]
  rw [show calculate_bpm_transition_smoothness_score [w1] = 1 from rfl]
  simp only [cfgW, QualityWeights.total]
  push_cast
  norm_num

theorem qualityOf_w2_eval : qualityOf [w2] cfgW = 7/10 := by
  unfold qualityOf calculate_quality_score
  rw [if_neg (by decide)]
  rw [if_pos (by norm_num [cfgW, QualityWeights.total])]
  rw [show (calculate_metadata [w2]).genre_distribution = [] from by decide]
  rw [show (calculate_metadata [w2]).era_span = (none, none) from by decide]
  rw [coherence_nil_eval, popularity_nodata_eval [w2] (by decide), era_none_eval]
  rw [show calculate_artist_diversity_score [w2] = 1 from rfl]
  rw [show calculate_bpm_transition_smoothness_score [w2] = 1 from rfl]
  simp only [cfgW, QualityWeights.total]
  push_cast
  norm_num

theorem qualityOf_w1w2_eval : qualityOf [w1, w2] cfgW = 7/10 := by
  unfold qualityOf calculate_quality_score
  rw [if_neg (by decide)]
  rw [if_pos (by norm_num [cfgW, QualityWeights.total])]
  rw [show (calculate_metadata [w1, w2]).genre_distribution = [] from by decide]
  rw [show (calculate_metadata [w1, w2]).era_span = (none, none) from by decide]
  rw [coherence_nil_eval, popularity_nodata_eval [w1, w2] (by decide), era_none_eval]
  rw [diversity_w1w2_eval, smoothness_w1w2_eval]
  simp only [cfgW, QualityWeights.total]
  push_cast
  norm_num

theorem qualityOf_nil_eval : qualityOf [] cfgW = 0 := by
  unfold qualityOf calculate_quality_score
  simp

theorem trans_nil_eval (c : Song) : calculate_transition_score cfgW [] c = 1/2 := rfl

theorem bpm_w1_w2_eval : calculate_bpm_transition_score cfgW w1 w2 = 1 := by
  simp only [calculate_bpm_transition_score,
    show w1.bpm = some 120 from rfl, show w2.bpm = some 120 from rfl]
  rw [if_pos (by decide)]

theorem genre_w1_w2_eval : calculate_genre_compatibility_score cfgW [w1] w2 = 1/2 := by
  unfold calculate_genre_compatibility_score
  rw [if_neg (by decide)]
  rw [if_pos (by decide)]

theorem trans_w1_w2_eval : calculate_transition_score cfgW [w1] w2 = 3/4 := by
  show (calculate_bpm_transition_score cfgW ([w1].getLast (List.cons_ne_nil w1 [])) w2 +
      calculate_genre_compatibility_score cfgW [w1] w2) / 2 = 3/4
  rw [show [w1].getLast (List.cons_ne_nil w1 []) = w1 from rfl]
  rw [bpm_w1_w2_eval, genre_w1_w2_eval]
  norm_num

theorem combined_nil_w1_eval : combined_score cfgW [] w1 = 16/25 := by
  unfold combined_score
  simp only [List.nil_append]
  rw [qualityOf_w1_eval, trans_nil_eval]
  norm_num

theorem combined_nil_w2_eval : combined_score cfgW [] w2 = 16/25 := by
  unfold combined_score
  simp only [List.nil_append]
  rw [qualityOf_w2_eval, trans_nil_eval]
  norm_num

theorem combined_w1_w2_eval : combined_score cfgW [w1] w2 = 143/200 := by
  unfold combined_score
  simp only [List.singleton_append]
  rw [qualityOf_w1w2_eval, trans_w1_w2_eval]
  norm_num

theorem find_best_eval1 :
    find_best_candidate cfgW [] [w1, w2] =
      some (w1, combined_score cfgW [] w1, calculate_transition_score cfgW [] w1) := by
  unfold find_best_candidate
  simp only [scan_candidates]
  rw [if_neg (by decide), if_neg (by decide)]
  rw [if_neg (by rw [combined_nil_w1_eval, combined_nil_w2_eval]; norm_num)]

theorem find_best_eval2 :
    find_best_candidate cfgW [w1] [w2] =
      some (w2, combined_score cfgW [w1] w2, calculate_transition_score cfgW [w1] w2) := by
  unfold find_best_candidate
  simp only [scan_candidates]
  rw [if_neg (by decide)]

theorem build_sequence_eval : build_sequence cfgW 2 [] songsW = [psW1, psW2] := by
  show build_sequence cfgW (1 + 1) [] [w1, w2] = [psW1, psW2]
  simp only [build_sequence]
  rw [show List.map PlaylistSong.song ([] : List PlaylistSong) = [] from rfl]
  rw [find_best_eval1]
  simp only []
  rw [show ([w1, w2].erase w1) = [w2] from by decide]
  rw [show (([] : List PlaylistSong) ++ [bestEntry cfgW [] w1 (combined_score cfgW [] w1)
      (calculate_transition_score cfgW [] w1)]).map PlaylistSong.song = [w1] from rfl]
  rw [find_best_eval2]
  simp only [build_sequence]
  have h1 : bestEntry cfgW [] w1 (combined_score cfgW [] w1)
      (calculate_transition_score cfgW [] w1) = psW1 := by
    unfold bestEntry psW1
    rw [combined_nil_w1_eval, trans_nil_eval, qualityOf_nil_eval]
    norm_num
  have h2 : bestEntry cfgW [w1] w2 (combined_score cfgW [w1] w2)
      (calculate_transition_score cfgW [w1] w2) = psW2 := by
    unfold bestEntry psW2
    rw [combined_w1_w2_eval, trans_w1_w2_eval, qualityOf_w1_eval]
    norm_num
  rw [h1, h2]
  rfl

theorem pref_w1_eval : calculate_preference_score daysSinceW w1 cfgW = 0 := by
  unfold calculate_preference_score
  simp [w1, Song.default, cfgW, prefWeightsW]

theorem pref_w2_eval : calculate_preference_score daysSinceW w2 cfgW = 0 := by
  unfold calculate_preference_score
  simp [w2, Song.default, cfgW, prefWeightsW]

theorem sort_songsW_eval :
    sortByKeyDesc (fun s => calculate_preference_score daysSinceW s cfgW) songsW
      = songsW := by
  show sortByKeyDesc (fun s => calculate_preference_score daysSinceW s cfgW) [w1, w2]
      = [w1, w2]
  simp only [sortByKeyDesc, insertByKeyDesc]
  rw [if_pos (by rw [pref_w1_eval, pref_w2_eval])]

theorem generate_playlist_eval :
    (generate_playlist cfgW daysSinceW songsW 2).songs = [psW1, psW2] := by
  rw [generate_playlist_songs_eq]
  rw [show (songsW.filter fun song =>
      should_include_song_with_play_count_filter song cfgW songsW) = songsW from by decide]
  rw [sort_songsW_eval]
  exact build_sequence_eval

/-- Witness for C2: on the concrete pool `[w1, w2]` with empty prefix,
the step selects `w1`, and the step equation holds. -/
theorem build_sequence_step_witness :
    find_best_candidate cfgW [] [w1, w2] =
      some (w1, combined_score cfgW [] w1, calculate_transition_score cfgW [] w1) ∧
    violates_hard_constraints cfgW [] w1 = false ∧
    w1 ∈ [w1, w2] ∧
    (∀ c' ∈ [w1, w2], violates_hard_constraints cfgW [] c' = false →
      combined_score cfgW [] c' ≤ combined_score cfgW [] w1) ∧
    build_sequence cfgW 2 [] [w1, w2] =
      build_sequence cfgW 1
        ([] ++ [bestEntry cfgW [] w1 (combined_score cfgW [] w1)
          (calculate_transition_score cfgW [] w1)])
        ([w1, w2].erase w1) :=
  have h := build_sequence_step cfgW 1 [] [w1, w2] w1
    (combined_score cfgW [] w1) (calculate_transition_score cfgW [] w1) find_best_eval1
  ⟨find_best_eval1, h.1, h.2.1, h.2.2.2.2.1, h.2.2.2.2.2.1⟩

/-- Witness for C3: the generated witness playlist places "Artist A" and
"Artist B" at positions 0 and 1, which differ. -/
theorem generate_playlist_artist_window_witness :
    cfgW.transition_rules.avoid_artist_repeats_within = 3 ∧
    (generate_playlist cfgW daysSinceW songsW 2).songs.get? 0 = some psW1 ∧
    (generate_playlist cfgW daysSinceW songsW 2).songs.get? 1 = some psW2 ∧
    psW1.song.artist ≠ psW2.song.artist := by
  have h0 : (generate_playlist cfgW daysSinceW songsW 2).songs.get? 0 = some psW1 := by
    rw [generate_playlist_eval]
    rfl
  have h1 : (generate_playlist cfgW daysSinceW songsW 2).songs.get? 1 = some psW2 := by
    rw [generate_playlist_eval]
    rfl
  exact ⟨rfl, h0, h1, generate_playlist_artist_window cfgW daysSinceW songsW 2 rfl 0 1
    (by norm_num) (by norm_num) psW1 psW2 h0 h1⟩

/-- Witness for C4: the first track of the generated witness playlist
passed the full filter; its tempo 120 lies in the configured `[100,150]`. -/
theorem generate_playlist_members_filtered_witness :
    psW1 ∈ (generate_playlist cfgW daysSinceW songsW 2).songs ∧
    should_include_song_with_play_count_filter psW1.song cfgW songsW = true ∧
    (100 ≤ 120 ∧ 120 ≤ 150) ∧
    does_not_match_unacceptable_genres psW1.song cfgW = true := by
  have hm : psW1 ∈ (generate_playlist cfgW daysSinceW songsW 2).songs := by
    rw [generate_playlist_eval]
    exact List.mem_cons_self _ _
  have h := generate_playlist_members_filtered cfgW daysSinceW songsW 2 psW1 hm
  exact ⟨hm, h.1, h.2.1 rfl 120 rfl, h.2.2⟩

end PlaylistGen
